import Mathlib

/-!
Shallow embedding of the keepassfunctions demo scripts (`demo.py`,
`demo_minimalistic.py`).  The demo layer is argument-parsing and
print-formatting glue over the external `KeePassFunctions` collaborator;
we model the collaborator as an opaque oracle and every demo function as a
pure function from the oracle (plus the user's console inputs, where the
source calls `input()`) to the trace of observable events it produces:
stdout prints, `input()` prompts, collaborator calls, database-session
acquisitions and releases, and the final process outcome.
-/

namespace KeepassDemo

/-- Python exception values that can flow through the demo scripts.  The
demo code only ever distinguishes `ValueError` from other exceptions in
its `except` clauses, and formats an exception with `str(e)` (its
message). -/
inductive PyErr where
  | valueError (msg : String)
  | typeError (msg : String)
  | attributeError (msg : String)
  | eofError (msg : String)
  | otherError (msg : String)
  deriving DecidableEq, Repr

/-- `str(e)` for the exceptions above: the message. -/
def errMsg : PyErr → String
  | .valueError m => m
  | .typeError m => m
  | .attributeError m => m
  | .eofError m => m
  | .otherError m => m

/-- A KeePass entry as handed back by the collaborator (pykeepass-style:
string fields may be `None`, which we model as `none`; Python's empty
string is falsy just like `None`).  The uuid is an opaque identity key. -/
structure Entry where
  title : String
  username : Option String
  password : Option String
  url : Option String
  notes : Option String
  autotype_sequence : Option String
  uuid : Nat
  deriving DecidableEq, Repr

/-- Observable events of a demo run: stdout lines, `input()` prompts,
collaborator calls, and database-session lifecycle.  `openAttempt` records
a `KeePassFunctions(...)` constructor call together with whether it
succeeded (a failed constructor acquires no session); `close` records a
session release (context-manager exit). -/
inductive Event where
  | print (line : String)
  | promptUser (msg : String)
  | openAttempt (path : String) (withGui : Bool) (ok : Bool)
  | close (path : String) (withGui : Bool)
  | lookupCall (title : String)
  | searchCall (title : String) (maxResults : Nat)
  | autotypeCall (title : String)
  | entryCountCall (path : String) (withGui : Bool)
  | entryExistsCall (term : String)
  | sleep (secs : Nat)
  deriving DecidableEq, Repr

/-- Modelled from the spec: the external `KeePassFunctions` collaborator
(`keepassfunctions/keepassfunctions.py`, not under `src/`) as an opaque
oracle.  Per the spec's collaborator interface, it provides database
open/close (`openResult` is `none` on success, `some e` when the
constructor raises `e`), exact-title credential lookup
(`get_credentials`, raising `ValueError` when the entry is absent), the
title/username/url search with a result cap (`search_entries`), autotype
playback (`use_KeePass_sequence`), the entry count of an open database
(`get_entry_count`), and the interactive search helper (`entry_exists`,
returning a count of matching entries). -/
structure Collaborator where
  openResult : String → Bool → Option PyErr
  get_credentials : String → Except PyErr Entry
  search_entries : String → Nat → Except PyErr (List Entry)
  use_KeePass_sequence : String → Except PyErr Unit
  get_entry_count : String → Bool → Except PyErr Nat
  entry_exists : String → Except PyErr Nat

/-- The string repeated-character helper (Python's `'=' * 50` etc.). -/
def repChar (n : Nat) (c : Char) : String :=
  String.mk (List.replicate n c)

/-- Python truthiness of an optional string: `None` and `''` are falsy. -/
def pyTruthy : Option String → Bool
  | none => false
  | some s => if s = "" then false else true

/-- Python `f"{v}"` for an optional string: `None` prints as `None`. -/
def pyStr : Option String → String
  | none => "None"
  | some s => s

/-- Python `v or 'N/A'` for an optional string. -/
def pyOrNA : Option String → String
  | none => "N/A"
  | some s => if s = "" then "N/A" else s

/-- The password rendering used by every handler:
`'*' * len(password) if password else 'N/A'`. -/
def pwdMask : Option String → String
  | none => "N/A"
  | some p => if p = "" then "N/A" else String.mk (List.replicate p.length '*')

/-- The notes rendering of `get_full_entry_demo` (demo.py line 58):
`entry.notes[:100] + '...' if entry.notes and len(entry.notes) > 100 else entry.notes or 'N/A'`. -/
def notesField : Option String → String
  | none => "N/A"
  | some n => if n = "" then "N/A" else if n.length > 100 then n.take 100 ++ "..." else n

/-- `"GUI" if with_gui else "console"`. -/
def inputMethodStr (g : Bool) : String :=
  if g then "GUI" else "console"

/-- The `EOFError` raised by `input()` at end of input. -/
def eofErr : PyErr := .eofError "EOF when reading a line"

/-- Python's `str.strip()` with no argument: remove leading and trailing
whitespace. -/
def pyStrip (s : String) : String :=
  String.mk (((s.data.dropWhile Char.isWhitespace).reverse.dropWhile
    Char.isWhitespace).reverse)

/-- demo.py `get_credentials_demo` (lines 267-281): header print, scoped
session, tuple credential lookup, masked password print; `ValueError` and
other exceptions are caught and printed, the context manager releases the
session before the `except` clause runs. -/
def get_credentials_demo (c : Collaborator) (db_path entry_title : String)
    (with_gui : Bool) : List Event :=
  let hdr := Event.print ("Getting credentials for entry: '" ++ entry_title ++
    "' (using " ++ inputMethodStr with_gui ++ " input)")
  match c.openResult db_path with_gui with
  | some e =>
    [hdr, .openAttempt db_path with_gui false] ++
    (match e with
     | .valueError m => [.print ("❌ Entry not found: " ++ m)]
     | _ => [.print ("❌ Error getting credentials: " ++ errMsg e)])
  | none =>
    match c.get_credentials entry_title with
    | .ok entry =>
      [hdr, .openAttempt db_path with_gui true, .lookupCall entry_title,
       .print ("✓ Username: " ++ pyStr entry.username),
       .print ("✓ Password: " ++ pwdMask entry.password),
       .close db_path with_gui]
    | .error e =>
      [hdr, .openAttempt db_path with_gui true, .lookupCall entry_title,
       .close db_path with_gui] ++
      (match e with
       | .valueError m => [.print ("❌ Entry not found: " ++ m)]
       | _ => [.print ("❌ Error getting credentials: " ++ errMsg e)])

/-- demo.py `get_full_entry_demo` (lines 45-66): like
`get_credentials_demo` but with the full-entry rendering, including the
truncated notes field and the autotype information. -/
def get_full_entry_demo (c : Collaborator) (db_path entry_title : String)
    (with_gui : Bool) : List Event :=
  let hdr := Event.print ("Getting full entry details for: '" ++ entry_title ++
    "' (using " ++ inputMethodStr with_gui ++ " input)")
  match c.openResult db_path with_gui with
  | some e =>
    [hdr, .openAttempt db_path with_gui false] ++
    (match e with
     | .valueError m => [.print ("❌ Entry not found: " ++ m)]
     | _ => [.print ("❌ Error getting entry details: " ++ errMsg e)])
  | none =>
    match c.get_credentials entry_title with
    | .ok entry =>
      [hdr, .openAttempt db_path with_gui true, .lookupCall entry_title,
       .print "\n📋 Entry Details:",
       .print ("   Title: " ++ entry.title),
       .print ("   Username: " ++ pyOrNA entry.username),
       .print ("   Password: " ++ pwdMask entry.password),
       .print ("   URL: " ++ pyOrNA entry.url),
       .print ("   Notes: " ++ notesField entry.notes),
       .print ("   Has Autotype: " ++ (if pyTruthy entry.autotype_sequence then "Yes" else "No"))] ++
      (if pyTruthy entry.autotype_sequence then
        [Event.print ("   Autotype Sequence: " ++ pyStr entry.autotype_sequence)]
      else []) ++
      [.close db_path with_gui]
    | .error e =>
      [hdr, .openAttempt db_path with_gui true, .lookupCall entry_title,
       .close db_path with_gui] ++
      (match e with
       | .valueError m => [.print ("❌ Entry not found: " ++ m)]
       | _ => [.print ("❌ Error getting entry details: " ++ errMsg e)])

/-- demo.py `autotype_demo` (lines 283-304): header prints, the unrolled
5→1 countdown (`for i in range(5, 0, -1)` printing then sleeping one
second), then the scoped session and the autotype playback call. -/
def autotype_demo (c : Collaborator) (db_path entry_title : String)
    (with_gui : Bool) : List Event :=
  [Event.print ("Executing autotype sequence for entry: '" ++ entry_title ++
     "' (using " ++ inputMethodStr with_gui ++ " input)"),
   .print "⚠️  Make sure the target application window is active!",
   .print "⏱️  Starting autotype in 5 seconds...", .sleep 1,
   .print "⏱️  Starting autotype in 4 seconds...", .sleep 1,
   .print "⏱️  Starting autotype in 3 seconds...", .sleep 1,
   .print "⏱️  Starting autotype in 2 seconds...", .sleep 1,
   .print "⏱️  Starting autotype in 1 seconds...", .sleep 1,
   .print "\n🚀 Executing autotype sequence..."] ++
  (match c.openResult db_path with_gui with
   | some e =>
     [.openAttempt db_path with_gui false] ++
     (match e with
      | .valueError m => [Event.print ("❌ Error: " ++ m)]
      | _ => [Event.print ("❌ Error executing autotype: " ++ errMsg e)])
   | none =>
     match c.use_KeePass_sequence entry_title with
     | .ok _ =>
       [.openAttempt db_path with_gui true, .autotypeCall entry_title,
        .print "✓ Autotype sequence completed successfully!",
        .close db_path with_gui]
     | .error e =>
       [.openAttempt db_path with_gui true, .autotypeCall entry_title,
        .close db_path with_gui] ++
       (match e with
        | .valueError m => [Event.print ("❌ Error: " ++ m)]
        | _ => [Event.print ("❌ Error executing autotype: " ++ errMsg e)]))

/-- One insertion step of a CPython dict display `{entry.uuid: entry ...}`:
assigning to an existing key keeps its position but overwrites its value;
a fresh key is appended. -/
def insertDict (d : List (Nat × Entry)) (e : Entry) : List (Nat × Entry) :=
  if d.any (fun p => p.1 = e.uuid) then
    d.map (fun p => if p.1 = e.uuid then (p.1, e) else p)
  else d ++ [(e.uuid, e)]

/-- The CPython dict comprehension `{entry.uuid: entry for entry in entries}`
as an ordered association list. -/
def pyDict (entries : List Entry) : List (Nat × Entry) :=
  entries.foldl insertDict []

/-- `list({entry.uuid: entry for entry in entries}.values())`
(demo.py line 317). -/
def dedupByUuid (entries : List Entry) : List Entry :=
  (pyDict entries).map Prod.snd

/-- The per-match block of `search_entries_demo`'s result loop
(demo.py lines 326-332). -/
def entryBlock (i : Nat) (e : Entry) : List Event :=
  [Event.print (toString i ++ ". 📝 " ++ e.title)] ++
  (if pyTruthy e.username then [Event.print ("   👤 Username: " ++ pyStr e.username)] else []) ++
  (if pyTruthy e.url then [Event.print ("   🌐 URL: " ++ pyStr e.url)] else []) ++
  [Event.print ""]

/-- `for i, entry in enumerate(unique_entries, 1): ...` -/
def numbered (i : Nat) : List Entry → List Event
  | [] => []
  | e :: es => entryBlock i e ++ numbered (i + 1) es

/-- demo.py `search_entries_demo` (lines 306-335): invokes the
collaborator search with `max_results=10`, de-duplicates the results with
a uuid-keyed dict, and prints the numbered list (or the no-matches
message); every exception is caught and printed after the session is
released. -/
def search_entries_demo (c : Collaborator) (db_path search_term : String)
    (with_gui : Bool) : List Event :=
  let hdr := Event.print ("🔍 Searching for entries containing '" ++ search_term ++
    "' (using " ++ inputMethodStr with_gui ++ " input):")
  match c.openResult db_path with_gui with
  | some e =>
    [hdr, .openAttempt db_path with_gui false,
     .print ("❌ Error searching entries: " ++ errMsg e)]
  | none =>
    match c.search_entries search_term 10 with
    | .error e =>
      [hdr, .openAttempt db_path with_gui true, .searchCall search_term 10,
       .close db_path with_gui,
       .print ("❌ Error searching entries: " ++ errMsg e)]
    | .ok entries =>
      let unique_entries := dedupByUuid entries
      [hdr, .openAttempt db_path with_gui true, .searchCall search_term 10] ++
      (if unique_entries.isEmpty then
        [Event.print ("❌ No entries found containing '" ++ search_term ++ "'."),
         Event.close db_path with_gui]
      else
        [Event.print ("\n✓ Found " ++ toString unique_entries.length ++ " matching entries:"),
         Event.print (repChar 60 '-')] ++
        numbered 1 unique_entries ++ [Event.close db_path with_gui])

/-- demo.py line 354/365: `logging.log(f"...")` passes a single positional
argument to `logging.log(level, msg, ...)`, so CPython raises a
`TypeError` before any logging happens; the surrounding `except Exception`
clauses treat it as an input-method failure. -/
def logCallBadArity : Except PyErr Unit :=
  .error (.typeError "log() missing 1 required positional argument: 'msg'")

/-- The `input()` prompt of `gui_comparison_demo`. -/
def comparePrompt : String := "Enter path to KeePass database file for comparison: "

/-- demo.py `gui_comparison_demo` (lines 337-372): prompts for a path,
first pass opens the database with console input and queries its entry
count, second pass repeats with graphical input; each pass's `except`
clause reports its failure (the first pass also `return`s on failure).
`pathInput` is the response to the single `input()` call (`none` = end of
input, so `input()` raises `EOFError`, which propagates to the caller:
the returned `Option PyErr` is the exception escaping the function).
The malformed `logging.log` call (`logCallBadArity`) sits at the end of
each pass's `with` block, exactly as in the source. -/
def gui_comparison_demo (c : Collaborator) (pathInput : Option String) :
    List Event × Option PyErr :=
  let hdr : List Event :=
    [.print "\n🔄 GUI vs Console Input Comparison Demo",
     .print (repChar 50 '='),
     .promptUser comparePrompt]
  match pathInput with
  | none => (hdr, some eofErr)
  | some raw =>
    let db_path := (pyStrip raw)
    if db_path = "" then
      (hdr ++ [Event.print "No database path provided. Skipping comparison demo."], none)
    else
      let p1 : List Event := hdr ++
        [.print "\n1️⃣  Testing with CONSOLE input:",
         .print "   You'll be prompted for password in the terminal"]
      match c.openResult db_path false with
      | some e =>
        (p1 ++ [.openAttempt db_path false false,
                .print ("   ❌ Console input failed: " ++ errMsg e)], none)
      | none =>
        let p2 := p1 ++ [Event.openAttempt db_path false true,
                         Event.entryCountCall db_path false]
        match c.get_entry_count db_path false with
        | .error e =>
          (p2 ++ [.close db_path false,
                  .print ("   ❌ Console input failed: " ++ errMsg e)], none)
        | .ok n =>
          let p3 := p2 ++ [Event.print ("   ✓ Successfully opened database with > " ++
            toString n ++ " < entries")]
          match logCallBadArity with
          | .error e =>
            (p3 ++ [.close db_path false,
                    .print ("   ❌ Console input failed: " ++ errMsg e)], none)
          | .ok _ =>
            let q1 := p3 ++ [Event.close db_path false,
              Event.print "\n2️⃣  Testing with GUI input:",
              Event.print "   You'll see a GUI dialog for password input"]
            match c.openResult db_path true with
            | some e =>
              (q1 ++ [.openAttempt db_path true false,
                      .print ("   ❌ GUI input failed: " ++ errMsg e),
                      .print "\n🎉 Comparison complete! Both input methods work."], none)
            | none =>
              let q2 := q1 ++ [Event.openAttempt db_path true true,
                               Event.entryCountCall db_path true]
              match c.get_entry_count db_path true with
              | .error e =>
                (q2 ++ [.close db_path true,
                        .print ("   ❌ GUI input failed: " ++ errMsg e),
                        .print "\n🎉 Comparison complete! Both input methods work."], none)
              | .ok m =>
                let q3 := q2 ++ [Event.print ("   ✓ Successfully opened database with > " ++
                  toString m ++ " < entries")]
                match logCallBadArity with
                | .error e =>
                  (q3 ++ [.close db_path true,
                          .print ("   ❌ GUI input failed: " ++ errMsg e),
                          .print "\n🎉 Comparison complete! Both input methods work."], none)
                | .ok _ =>
                  (q3 ++ [.close db_path true,
                          .print "\n🎉 Comparison complete! Both input methods work."], none)

/-- The menu block printed at the top of every interactive-loop iteration
(demo.py lines 84-92), ending with the choice prompt. -/
def menuEvents : List Event :=
  [.print ("\n" ++ repChar 50 '='),
   .print "Available actions:",
   .print "1. Search entries",
   .print "2. Get credentials",
   .print "3. Get full entry details",
   .print "4. Execute autotype sequence",
   .print "5. Compare GUI vs console",
   .print "6. Exit",
   .promptUser "\nEnter your choice (1-6): "]

/-- One iteration of demo.py `interactive_mode`'s `while True` menu loop
(lines 83-154), run inside the long-lived session `kp`: `choiceRaw` is
the response to the choice prompt, `rest` the remaining responses, and
`recur` continues the loop on the responses left after this iteration.
The returned `Option PyErr` is the exception escaping the loop (`none` =
normal exit via choice 6's `break`): the choice-1 branch has no `try`,
the choice-2/3 branches catch only `ValueError` (every other exception
propagates), and the choice-4 branch catches everything, exactly as in
the source. -/
def interactiveBody (c : Collaborator)
    (recur : List String → List Event × Option PyErr)
    (choiceRaw : String) (rest : List String) : List Event × Option PyErr :=
if pyStrip choiceRaw = "1" then
  match rest with
  | [] => (menuEvents ++ [Event.promptUser "Enter search term: "], some eofErr)
  | termRaw :: rest2 =>
    if pyStrip termRaw = "" then
      let r := recur rest2
      (menuEvents ++ [Event.promptUser "Enter search term: "] ++ r.1, r.2)
    else
      match c.entry_exists (pyStrip termRaw) with
      | .error e =>
        (menuEvents ++ [Event.promptUser "Enter search term: ",
          Event.entryExistsCall (pyStrip termRaw)], some e)
      | .ok n =>
        if n ≠ 0 then
          let r := recur rest2
          (menuEvents ++ [Event.promptUser "Enter search term: ",
            Event.entryExistsCall (pyStrip termRaw),
            Event.print ("\n'" ++ pyStrip termRaw ++
              "' was found as title for > " ++ toString n ++ " < entries.")] ++
            r.1, r.2)
        else
          let r := recur rest2
          (menuEvents ++ [Event.promptUser "Enter search term: ",
            Event.entryExistsCall (pyStrip termRaw),
            Event.print ("No entries found containing '" ++ pyStrip termRaw ++
              "'.")] ++ r.1, r.2)
else if pyStrip choiceRaw = "2" then
  match rest with
  | [] => (menuEvents ++ [Event.promptUser "Enter entry title: "], some eofErr)
  | tRaw :: rest2 =>
    if pyStrip tRaw = "" then
      let r := recur rest2
      (menuEvents ++ [Event.promptUser "Enter entry title: "] ++ r.1, r.2)
    else
      match c.get_credentials (pyStrip tRaw) with
      | .ok entry =>
        let r := recur rest2
        (menuEvents ++ [Event.promptUser "Enter entry title: ",
          Event.lookupCall (pyStrip tRaw),
          Event.print ("Username: " ++ pyStr entry.username),
          Event.print ("Password: " ++ pwdMask entry.password)] ++ r.1, r.2)
      | .error (.valueError m) =>
        let r := recur rest2
        (menuEvents ++ [Event.promptUser "Enter entry title: ",
          Event.lookupCall (pyStrip tRaw),
          Event.print ("Error: " ++ m)] ++ r.1, r.2)
      | .error (.typeError m) =>
        (menuEvents ++ [Event.promptUser "Enter entry title: ",
          Event.lookupCall (pyStrip tRaw)], some (.typeError m))
      | .error (.attributeError m) =>
        (menuEvents ++ [Event.promptUser "Enter entry title: ",
          Event.lookupCall (pyStrip tRaw)], some (.attributeError m))
      | .error (.eofError m) =>
        (menuEvents ++ [Event.promptUser "Enter entry title: ",
          Event.lookupCall (pyStrip tRaw)], some (.eofError m))
      | .error (.otherError m) =>
        (menuEvents ++ [Event.promptUser "Enter entry title: ",
          Event.lookupCall (pyStrip tRaw)], some (.otherError m))
else if pyStrip choiceRaw = "3" then
  match rest with
  | [] => (menuEvents ++ [Event.promptUser "Enter entry title: "], some eofErr)
  | tRaw :: rest2 =>
    if pyStrip tRaw = "" then
      let r := recur rest2
      (menuEvents ++ [Event.promptUser "Enter entry title: "] ++ r.1, r.2)
    else
      match c.get_credentials (pyStrip tRaw) with
      | .ok entry =>
        let r := recur rest2
        (menuEvents ++ [Event.promptUser "Enter entry title: ",
          Event.lookupCall (pyStrip tRaw),
          Event.print "\nEntry Details:",
          Event.print ("Title: " ++ entry.title),
          Event.print ("Username: " ++ pyStr entry.username),
          Event.print ("Password: " ++ pwdMask entry.password),
          Event.print ("URL: " ++ pyOrNA entry.url),
          Event.print ("Notes: " ++ pyOrNA entry.notes),
          Event.print ("Autotype Sequence: " ++ pyOrNA entry.autotype_sequence)] ++
          r.1, r.2)
      | .error (.valueError m) =>
        let r := recur rest2
        (menuEvents ++ [Event.promptUser "Enter entry title: ",
          Event.lookupCall (pyStrip tRaw),
          Event.print ("Error: " ++ m)] ++ r.1, r.2)
      | .error (.typeError m) =>
        (menuEvents ++ [Event.promptUser "Enter entry title: ",
          Event.lookupCall (pyStrip tRaw)], some (.typeError m))
      | .error (.attributeError m) =>
        (menuEvents ++ [Event.promptUser "Enter entry title: ",
          Event.lookupCall (pyStrip tRaw)], some (.attributeError m))
      | .error (.eofError m) =>
        (menuEvents ++ [Event.promptUser "Enter entry title: ",
          Event.lookupCall (pyStrip tRaw)], some (.eofError m))
      | .error (.otherError m) =>
        (menuEvents ++ [Event.promptUser "Enter entry title: ",
          Event.lookupCall (pyStrip tRaw)], some (.otherError m))
else if pyStrip choiceRaw = "4" then
  match rest with
  | [] =>
    (menuEvents ++ [Event.promptUser "Enter entry title for autotype: "],
     some eofErr)
  | tRaw :: rest2 =>
    if pyStrip tRaw = "" then
      let r := recur rest2
      (menuEvents ++ [Event.promptUser "Enter entry title for autotype: "] ++
        r.1, r.2)
    else
      match rest2 with
      | [] =>
        (menuEvents ++ [Event.promptUser "Enter entry title for autotype: ",
          Event.print "Make sure the target window is active!",
          Event.promptUser "Press Enter when ready..."], some eofErr)
      | _ :: rest3 =>
        match c.use_KeePass_sequence (pyStrip tRaw) with
        | .ok _ =>
          let r := recur rest3
          (menuEvents ++ [Event.promptUser "Enter entry title for autotype: ",
            Event.print "Make sure the target window is active!",
            Event.promptUser "Press Enter when ready...",
            Event.autotypeCall (pyStrip tRaw),
            Event.print "Autotype sequence executed!"] ++ r.1, r.2)
        | .error (.valueError m) =>
          let r := recur rest3
          (menuEvents ++ [Event.promptUser "Enter entry title for autotype: ",
            Event.print "Make sure the target window is active!",
            Event.promptUser "Press Enter when ready...",
            Event.autotypeCall (pyStrip tRaw),
            Event.print ("Error: " ++ m)] ++ r.1, r.2)
        | .error (.typeError m) =>
          let r := recur rest3
          (menuEvents ++ [Event.promptUser "Enter entry title for autotype: ",
            Event.print "Make sure the target window is active!",
            Event.promptUser "Press Enter when ready...",
            Event.autotypeCall (pyStrip tRaw),
            Event.print ("Error executing autotype: " ++
              errMsg (.typeError m))] ++ r.1, r.2)
        | .error (.attributeError m) =>
          let r := recur rest3
          (menuEvents ++ [Event.promptUser "Enter entry title for autotype: ",
            Event.print "Make sure the target window is active!",
            Event.promptUser "Press Enter when ready...",
            Event.autotypeCall (pyStrip tRaw),
            Event.print ("Error executing autotype: " ++
              errMsg (.attributeError m))] ++ r.1, r.2)
        | .error (.eofError m) =>
          let r := recur rest3
          (menuEvents ++ [Event.promptUser "Enter entry title for autotype: ",
            Event.print "Make sure the target window is active!",
            Event.promptUser "Press Enter when ready...",
            Event.autotypeCall (pyStrip tRaw),
            Event.print ("Error executing autotype: " ++
              errMsg (.eofError m))] ++ r.1, r.2)
        | .error (.otherError m) =>
          let r := recur rest3
          (menuEvents ++ [Event.promptUser "Enter entry title for autotype: ",
            Event.print "Make sure the target window is active!",
            Event.promptUser "Press Enter when ready...",
            Event.autotypeCall (pyStrip tRaw),
            Event.print ("Error executing autotype: " ++
              errMsg (.otherError m))] ++ r.1, r.2)
else if pyStrip choiceRaw = "5" then
  match rest with
  | [] =>
    let g := gui_comparison_demo c none
    (menuEvents ++ g.1, g.2)
  | p :: rest2 =>
    let g := gui_comparison_demo c (some p)
    let r := recur rest2
    (menuEvents ++ g.1 ++ r.1, r.2)
else if pyStrip choiceRaw = "6" then
  (menuEvents ++ [Event.print "Exiting interactive mode..."], none)
else
  let r := recur rest
  (menuEvents ++ [Event.print "Invalid choice. Please enter 1-6."] ++ r.1, r.2)

/-- The menu loop with explicit fuel (the recursion measure): every
iteration consumes at least one input before recursing, so fuel equal to
the number of remaining inputs always suffices, and the 0-fuel fallback
(which behaves like end of input) is unreachable from `interactiveLoop`.
When the inputs run out, `input()` raises `EOFError`. -/
def interactiveLoopAux (c : Collaborator) : Nat → List String → List Event × Option PyErr
  | _, [] => (menuEvents, some eofErr)
  | 0, _ :: _ => (menuEvents, some eofErr)
  | fuel + 1, choiceRaw :: rest =>
    interactiveBody c (interactiveLoopAux c fuel) choiceRaw rest

/-- demo.py `interactive_mode`'s `while True` menu loop (lines 83-154):
`inputs` are the responses to the successive `input()` calls. -/
def interactiveLoop (c : Collaborator) (inputs : List String) :
    List Event × Option PyErr :=
  interactiveLoopAux c inputs.length inputs

/-- The hard-coded database path of `interactive_mode` (demo.py line 76);
the `input()` prompt for the path is commented out in the source. -/
def hardPath : String := "~\\Losenordslista_SD_Personlig.kdbx"

/-- demo.py `interactive_mode` (lines 68-157): banner print, session
opened on the hard-coded path, then the menu loop; the session is
released when the loop `break`s or when an exception escapes it, and the
outer `except Exception` prints the escaping exception. -/
def interactive_mode (c : Collaborator) (with_gui : Bool)
    (inputs : List String) : List Event :=
  let banner := Event.print ("\n=== KeePass Interactive Mode (using " ++
    inputMethodStr with_gui ++ " input) ===")
  match c.openResult hardPath with_gui with
  | some e =>
    [banner, .openAttempt hardPath with_gui false,
     .print ("Error in interactive mode: " ++ errMsg e)]
  | none =>
    let r := interactiveLoop c inputs
    [banner, .openAttempt hardPath with_gui true] ++ r.1 ++
    [Event.close hardPath with_gui] ++
    (match r.2 with
     | none => []
     | some e => [Event.print ("Error in interactive mode: " ++ errMsg e)])

/-- The `argparse.Namespace` produced by `main`'s parser (demo.py lines
160-202): exactly the attributes `db`, `gui`, `entry`, `search`,
`get_credentials`, `get_full_entry`, `autotype`, `interactive`,
`verbose` are defined (one per `add_argument` call; `--db` alias
`--database` has dest `db`, `--verbose` alias `-v` has dest `verbose`). -/
structure Args where
  db : Option String
  gui : Bool
  entry : Option String
  search : Option String
  get_credentials : Bool
  get_full_entry : Bool
  autotype : Bool
  interactive : Bool
  verbose : Bool
  deriving DecidableEq, Repr

/-- Attribute access `getattr(args, name)` for the boolean flags of the
parsed namespace: any name that is not a defined attribute raises
`AttributeError`, as CPython does for `argparse.Namespace`.  In
particular `list_entries` — read by `main`'s action count (demo.py line
226) — is never defined by any `add_argument` call. -/
def nsBool (a : Args) : String → Except PyErr Bool
  | "gui" => .ok a.gui
  | "get_credentials" => .ok a.get_credentials
  | "get_full_entry" => .ok a.get_full_entry
  | "autotype" => .ok a.autotype
  | "interactive" => .ok a.interactive
  | "verbose" => .ok a.verbose
  | n => .error (.attributeError ("'Namespace' object has no attribute '" ++ n ++ "'"))

/-- `1 if b else 0`, the value a `bool` contributes to Python's `sum`. -/
def b2n (b : Bool) : Nat := if b then 1 else 0

/-- demo.py lines 222-228: the action count
`sum([args.get_credentials, args.get_full_entry, args.autotype,
args.list_entries, bool(args.search)])`; the list display is evaluated
left to right, so the `args.list_entries` lookup runs (and raises)
before `bool(args.search)`. -/
def action_count (a : Args) : Except PyErr Nat := do
  let gc ← nsBool a "get_credentials"
  let gf ← nsBool a "get_full_entry"
  let au ← nsBool a "autotype"
  let le ← nsBool a "list_entries"
  pure (b2n gc + b2n gf + b2n au + b2n le + b2n (pyTruthy a.search))

/-- The outcome of running `main`: a plain return (the process then exits
0), an explicit `sys.exit(code)`, or an uncaught exception (CPython then
exits with status 1). -/
inductive Outcome where
  | finished
  | exited (code : Nat)
  | crashed (e : PyErr)
  deriving DecidableEq, Repr

/-- The process exit status an `Outcome` produces. -/
def processExit : Outcome → Nat
  | .finished => 0
  | .exited n => n
  | .crashed _ => 1

/-- demo.py `main` (lines 159-265): interactive mode short-circuits,
non-interactive mode requires `--db`, then computes the action count
(which reads the undefined `list_entries` attribute), validates it, and
dispatches on `args.search` / `args.get_credentials` /
`args.get_full_entry` / `args.autotype` with the per-action `--entry`
checks.  `inputs` feeds the `input()` calls of interactive mode. -/
def mainRun (c : Collaborator) (a : Args) (inputs : List String) :
    List Event × Outcome :=
  if a.interactive then
    (interactive_mode c a.gui inputs, .finished)
  else
    match a.db with
    | none =>
      ([.print "Error: --db is required for non-interactive mode",
        .print "Use --interactive for interactive mode or --help for usage information"],
       .exited 1)
    | some db_path =>
      match action_count a with
      | .error e => ([], .crashed e)
      | .ok n =>
        if n = 0 then
          ([Event.print "Error: No action specified. Use --help for available actions."], .exited 1)
        else if n > 1 then
          ([Event.print "Error: Only one action can be specified at a time."], .exited 1)
        else if pyTruthy a.search then
          (search_entries_demo c db_path (a.search.getD "") a.gui, .finished)
        else if a.get_credentials then
          if pyTruthy a.entry then
            (get_credentials_demo c db_path (a.entry.getD "") a.gui, .finished)
          else
            ([Event.print "Error: --entry is required for --get-credentials"], .exited 1)
        else if a.get_full_entry then
          if pyTruthy a.entry then
            (get_full_entry_demo c db_path (a.entry.getD "") a.gui, .finished)
          else
            ([Event.print "Error: --entry is required for --get-full-entry"], .exited 1)
        else if a.autotype then
          if pyTruthy a.entry then
            (autotype_demo c db_path (a.entry.getD "") a.gui, .finished)
          else
            ([Event.print "Error: --entry is required for --autotype"], .exited 1)
        else ([], .finished)

/-- demo_minimalistic.py (whole script): the first block opens
`C:\Passwords.kdbx` inside a `with` (so the session is released on every
path), the second block constructs `KeePassFunctions` directly, queries
the entry count, and never releases the session. -/
def demo_minimalistic (c : Collaborator) : List Event :=
  let db := "C:\\Passwords.kdbx"
  (match c.openResult db false with
   | some e =>
     [.openAttempt db false false,
      .print ("Error when accessing database file with context manager\n" ++ errMsg e)]
   | none =>
     match c.get_entry_count db false with
     | .error e =>
       [.openAttempt db false true, .entryCountCall db false, .close db false,
        .print ("Error when accessing database file with context manager\n" ++ errMsg e)]
     | .ok n =>
       [.openAttempt db false true, .entryCountCall db false,
        .print ("Antal poster: " ++ toString n), .close db false]) ++
  (match c.openResult db false with
   | some e =>
     [.openAttempt db false false,
      .print ("Error when accessing database file directly:\n" ++ errMsg e)]
   | none =>
     match c.get_entry_count db false with
     | .error e =>
       [.openAttempt db false true, .entryCountCall db false,
        .print ("Error when accessing database file directly:\n" ++ errMsg e)]
     | .ok n =>
       [.openAttempt db false true, .entryCountCall db false,
        .print ("Antal poster: " ++ toString n)])

/-- Classification of events that call into the collaborator (any
database open, close, lookup, search, autotype, count or existence
query). -/
def isCollabEvent : Event → Bool
  | .openAttempt _ _ _ => true
  | .close _ _ => true
  | .lookupCall _ => true
  | .searchCall _ _ => true
  | .autotypeCall _ => true
  | .entryCountCall _ _ => true
  | .entryExistsCall _ => true
  | _ => false

/-- Number of successfully acquired database sessions in a trace. -/
def acquiredCount (t : List Event) : Nat :=
  t.countP (fun ev => match ev with | .openAttempt _ _ true => true | _ => false)

/-- Number of released database sessions in a trace. -/
def releasedCount (t : List Event) : Nat :=
  t.countP (fun ev => match ev with | .close _ _ => true | _ => false)

/-- The `AttributeError` raised by `args.list_entries`. -/
def listEntriesAttrErr : PyErr :=
  .attributeError "'Namespace' object has no attribute 'list_entries'"

/-- A quiescent concrete collaborator used by several witnesses. -/
def idleCollab : Collaborator where
  openResult := fun _ _ => none
  get_credentials := fun _ => .error (.valueError "no such entry")
  search_entries := fun _ _ => .ok []
  use_KeePass_sequence := fun _ => .ok ()
  get_entry_count := fun _ _ => .ok 0
  entry_exists := fun _ => .ok 0

/-- A concrete argument namespace: non-interactive, `--db` given, no
action flag set. -/
def argsNoAction : Args where
  db := some "pw.kdbx"
  gui := false
  entry := none
  search := none
  get_credentials := false
  get_full_entry := false
  autotype := false
  interactive := false
  verbose := false

/-- The number of action flags among `--get-credentials`,
`--get-full-entry`, `--autotype`, `--search` that an invocation sets. -/
def actionFlagsSet (a : Args) : Nat :=
  b2n a.get_credentials + b2n a.get_full_entry + b2n a.autotype + b2n a.search.isSome

/-- A concrete entry with a four-character password. -/
def aliceEntry : Entry where
  title := "Site"
  username := some "alice"
  password := some "p4ss"
  url := none
  notes := none
  autotype_sequence := none
  uuid := 1

/-- A collaborator whose lookup always finds `aliceEntry`. -/
def aliceCollab : Collaborator where
  openResult := fun _ _ => none
  get_credentials := fun _ => .ok aliceEntry
  search_entries := fun _ _ => .ok []
  use_KeePass_sequence := fun _ => .ok ()
  get_entry_count := fun _ _ => .ok 0
  entry_exists := fun _ => .ok 0

/-- A concrete entry whose notes are the empty string. -/
def emptyNotesEntry : Entry where
  title := "Site"
  username := some "alice"
  password := some "p4ss"
  url := none
  notes := some ""
  autotype_sequence := none
  uuid := 2

/-- A collaborator whose lookup always finds `emptyNotesEntry`. -/
def emptyNotesCollab : Collaborator where
  openResult := fun _ _ => none
  get_credentials := fun _ => .ok emptyNotesEntry
  search_entries := fun _ _ => .ok []
  use_KeePass_sequence := fun _ => .ok ()
  get_entry_count := fun _ _ => .ok 0
  entry_exists := fun _ => .ok 0

/-- A 150-character notes string. -/
def longNotes : String := String.mk (List.replicate 150 'a')

/-- A concrete entry with 150-character notes. -/
def longNotesEntry : Entry where
  title := "Site"
  username := some "alice"
  password := some "p4ss"
  url := none
  notes := some longNotes
  autotype_sequence := none
  uuid := 3

/-- A collaborator whose lookup always finds `longNotesEntry`. -/
def longNotesCollab : Collaborator where
  openResult := fun _ _ => none
  get_credentials := fun _ => .ok longNotesEntry
  search_entries := fun _ _ => .ok []
  use_KeePass_sequence := fun _ => .ok ()
  get_entry_count := fun _ _ => .ok 0
  entry_exists := fun _ => .ok 0

/-- Events that attempt a graphical-input database open. -/
def guiOpenAttemptEv : Event → Bool
  | .openAttempt _ true _ => true
  | _ => false

/-- A collaborator whose database opens always succeed and whose entry
count is 3. -/
def compareCollab : Collaborator where
  openResult := fun _ _ => none
  get_credentials := fun _ => .error (.valueError "no such entry")
  search_entries := fun _ _ => .ok []
  use_KeePass_sequence := fun _ => .ok ()
  get_entry_count := fun _ _ => .ok 3
  entry_exists := fun _ => .ok 0

/-- A collaborator whose database opens always fail. -/
def lockedCollab : Collaborator where
  openResult := fun _ _ => some (.otherError "credentials verification failed")
  get_credentials := fun _ => .error (.valueError "no such entry")
  search_entries := fun _ _ => .ok []
  use_KeePass_sequence := fun _ => .ok ()
  get_entry_count := fun _ _ => .ok 0
  entry_exists := fun _ => .ok 0

/-- A concrete interactive argument namespace with a `--db` value to be
ignored. -/
def argsInteractive : Args where
  db := some "given.kdbx"
  gui := false
  entry := none
  search := none
  get_credentials := false
  get_full_entry := false
  autotype := false
  interactive := true
  verbose := false

/-- The keys a dict display appends beyond those already in `seen`, in
first-occurrence order. -/
def freshKeys (seen : List Nat) : List Entry → List Nat
  | [] => []
  | e :: es =>
    if seen.any (fun v => v = e.uuid) then freshKeys seen es
    else e.uuid :: freshKeys (seen ++ [e.uuid]) es

/-- First occurrences of a list of keys, kept in first-seen order: the
statement-side meaning of ``de-duplicated by identity key, preserving
first-seen order''. -/
def firstSeenKeys : List Nat → List Nat
  | [] => []
  | u :: us => u :: firstSeenKeys (us.filter (fun v => v ≠ u))
termination_by l => l.length
decreasing_by
  simp only [List.length_cons]
  exact Nat.lt_succ_of_le (List.length_filter_le _ _)

/-- A concrete search result entry with uuid 7. -/
def dupEntryA : Entry where
  title := "GitHub"
  username := some "alice"
  password := some "x"
  url := some "https://github.com"
  notes := none
  autotype_sequence := none
  uuid := 7

/-- A second entry with the same uuid 7. -/
def dupEntryB : Entry where
  title := "GitHub (mirror)"
  username := some "alice"
  password := some "x"
  url := some "https://github.com"
  notes := none
  autotype_sequence := none
  uuid := 7

/-- A third entry with uuid 9. -/
def dupEntryC : Entry where
  title := "GitLab"
  username := some "bob"
  password := some "y"
  url := some "https://gitlab.com"
  notes := none
  autotype_sequence := none
  uuid := 9

/-- A collaborator whose search returns a duplicate-uuid result list. -/
def dupSearchCollab : Collaborator where
  openResult := fun _ _ => none
  get_credentials := fun _ => .error (.valueError "no such entry")
  search_entries := fun _ _ => .ok [dupEntryA, dupEntryB, dupEntryC]
  use_KeePass_sequence := fun _ => .ok ()
  get_entry_count := fun _ _ => .ok 0
  entry_exists := fun _ => .ok 0

/-- A collaborator whose opens succeed with entry count 3. -/
def miniCollab : Collaborator where
  openResult := fun _ _ => none
  get_credentials := fun _ => .error (.valueError "no such entry")
  search_entries := fun _ _ => .ok []
  use_KeePass_sequence := fun _ => .ok ()
  get_entry_count := fun _ _ => .ok 3
  entry_exists := fun _ => .ok 0

/-- Two optional passwords that differ only in value, not in presence or
length: both absent, or both present with equal length.  (Equal length
is the information the asterisk mask is allowed to leak.) -/
def pwdEquiv : Option String → Option String → Prop
  | none, none => True
  | some p, some q => p.length = q.length
  | _, _ => False

/-- Two entries that agree on every field except possibly the password
value, whose lengths agree. -/
def entryEquiv (e1 e2 : Entry) : Prop :=
  e1.title = e2.title ∧ e1.username = e2.username ∧
  pwdEquiv e1.password e2.password ∧ e1.url = e2.url ∧
  e1.notes = e2.notes ∧ e1.autotype_sequence = e2.autotype_sequence ∧
  e1.uuid = e2.uuid

/-- Lookup results that agree up to `entryEquiv`. -/
def credEquiv : Except PyErr Entry → Except PyErr Entry → Prop
  | .ok e1, .ok e2 => entryEquiv e1 e2
  | .error a, .error b => a = b
  | _, _ => False

/-- Search results that agree pointwise up to `entryEquiv`. -/
def searchEquiv : Except PyErr (List Entry) → Except PyErr (List Entry) → Prop
  | .ok l1, .ok l2 => List.Forall₂ entryEquiv l1 l2
  | .error a, .error b => a = b
  | _, _ => False

/-- Two collaborators whose behaviours differ only in the password values
(of equal length) inside the entries they return. -/
def collabEquiv (c1 c2 : Collaborator) : Prop :=
  c1.openResult = c2.openResult ∧
  (∀ t, credEquiv (c1.get_credentials t) (c2.get_credentials t)) ∧
  (∀ t n, searchEquiv (c1.search_entries t n) (c2.search_entries t n)) ∧
  c1.use_KeePass_sequence = c2.use_KeePass_sequence ∧
  c1.get_entry_count = c2.get_entry_count ∧
  c1.entry_exists = c2.entry_exists

/-- Pairs of dict entries that agree on the key and relate on the
value. -/
def pairEquiv (p q : Nat × Entry) : Prop :=
  p.1 = q.1 ∧ entryEquiv p.2 q.2

/-- `aliceEntry` with a different password of the same length. -/
def aliceEntry2 : Entry :=
  { aliceEntry with password := some "s3cr" }

/-- `aliceCollab` with the password of `aliceEntry` replaced by a
different value of the same length. -/
def aliceCollab2 : Collaborator where
  openResult := fun _ _ => none
  get_credentials := fun _ => .ok aliceEntry2
  search_entries := fun _ _ => .ok []
  use_KeePass_sequence := fun _ => .ok ()
  get_entry_count := fun _ _ => .ok 0
  entry_exists := fun _ => .ok 0

theorem action_count_attr (a : Args) :
    action_count a = .error listEntriesAttrErr := rfl

theorem mainRun_crashes (c : Collaborator) (a : Args) (inputs : List String)
    (d : String) (hInt : a.interactive = false) (hdb : a.db = some d) :
    mainRun c a inputs = ([], .crashed listEntriesAttrErr) := by
  simp only [mainRun, hInt, Bool.false_eq_true, if_false, hdb, action_count_attr]

/-- C1: in non-interactive mode with `--db` provided, the action-count
computation reads the `list_entries` attribute that the argument parser
never defines, so every such invocation crashes in the count computation
itself: the count-is-0 and count-greater-than-1 checks never print and no
handler is dispatched (the event trace is empty and the outcome is the
uncaught `AttributeError`). -/
theorem action_count_reads_undefined_list_entries :
    (∀ a : Args, action_count a = .error listEntriesAttrErr) ∧
    (∀ (c : Collaborator) (a : Args) (inputs : List String) (d : String),
      a.interactive = false → a.db = some d →
      mainRun c a inputs = ([], .crashed listEntriesAttrErr)) :=
  ⟨action_count_attr, fun c a inputs d hInt hdb => mainRun_crashes c a inputs d hInt hdb⟩

/-- Witness for C1 at a concrete non-interactive invocation with `--db`. -/
theorem action_count_reads_undefined_list_entries_witness :
    mainRun idleCollab argsNoAction [] = ([], .crashed listEntriesAttrErr) :=
  action_count_reads_undefined_list_entries.2 idleCollab argsNoAction [] "pw.kdbx" rfl rfl

/-- C2: every non-interactive invocation that sets zero, or more than
one, of the four action flags exits with process status 1 and produces no
collaborator call (no database open or close, no lookup, search, count,
existence or autotype call). -/
theorem bad_action_selection_exits_one_without_collaborator :
    ∀ (c : Collaborator) (a : Args) (inputs : List String),
      a.interactive = false →
      (actionFlagsSet a = 0 ∨ 1 < actionFlagsSet a) →
      processExit (mainRun c a inputs).2 = 1 ∧
      (mainRun c a inputs).1.countP isCollabEvent = 0 := by
  intro c a inputs hInt _
  cases hdb : a.db with
  | none =>
    simp only [mainRun, hInt, Bool.false_eq_true, if_false, hdb]
    exact ⟨rfl, rfl⟩
  | some d =>
    rw [mainRun_crashes c a inputs d hInt hdb]
    exact ⟨rfl, rfl⟩

/-- Witness for C2: a concrete invocation with zero action flags. -/
theorem bad_action_selection_exits_one_without_collaborator_witness :
    processExit (mainRun idleCollab argsNoAction []).2 = 1 ∧
    (mainRun idleCollab argsNoAction []).1.countP isCollabEvent = 0 :=
  bad_action_selection_exits_one_without_collaborator idleCollab argsNoAction []
    rfl (Or.inl rfl)

theorem string_ne_empty_length {s : String} (h : s ≠ "") : s.length ≠ 0 := by
  cases s with
  | mk l =>
    intro h0
    have : l = [] := List.eq_nil_of_length_eq_zero h0
    subst this
    exact h rfl

theorem pwdMask_length {s : String} (h : s ≠ "") :
    (pwdMask (some s)).length = s.length := by
  simp only [pwdMask, if_neg h]
  show (List.replicate s.length '*').length = s.length
  simp

theorem pwdMask_all_stars {s : String} (h : s ≠ "") :
    ∀ ch ∈ (pwdMask (some s)).data, ch = '*' := by
  simp only [pwdMask, if_neg h]
  intro ch hch
  exact List.eq_of_mem_replicate hch

theorem pwdMask_absent {p : Option String}
    (h : p = none ∨ p = some "") : pwdMask p = "N/A" := by
  rcases h with h | h <;> subst h <;> rfl

theorem pwdMask_ne_empty (p : Option String) : pwdMask p ≠ "" := by
  match p with
  | none => intro h; exact absurd h (by decide)
  | some s =>
    by_cases hs : s = ""
    · subst hs; intro h; exact absurd h (by decide)
    · simp only [pwdMask, if_neg hs]
      intro h
      have h0 : (String.mk (List.replicate s.length '*')).length = 0 := by rw [h]; rfl
      have h1 : (String.mk (List.replicate s.length '*')).length = s.length := by
        show (List.replicate s.length '*').length = s.length
        simp
      rw [h1] at h0
      exact string_ne_empty_length hs h0

theorem get_credentials_demo_ok_trace (c : Collaborator) (db t : String)
    (g : Bool) (e : Entry) (hopen : c.openResult db g = none)
    (hcred : c.get_credentials t = .ok e) :
    get_credentials_demo c db t g =
      [Event.print ("Getting credentials for entry: '" ++ t ++
         "' (using " ++ inputMethodStr g ++ " input)"),
       .openAttempt db g true, .lookupCall t,
       .print ("✓ Username: " ++ pyStr e.username),
       .print ("✓ Password: " ++ pwdMask e.password),
       .close db g] := by
  simp only [get_credentials_demo, hopen, hcred]

/-- C5: every successful `get-credentials` run prints the password line
with `pwdMask` of the real password: for a nonempty password an asterisk
mask of exactly the password's length, for an empty or absent password
exactly `N/A`; the mask is never the zero-length string. -/
theorem get_credentials_password_always_masked :
    ∀ (c : Collaborator) (db t : String) (g : Bool) (e : Entry),
      c.openResult db g = none →
      c.get_credentials t = .ok e →
      Event.print ("✓ Password: " ++ pwdMask e.password) ∈ get_credentials_demo c db t g ∧
      (∀ s, e.password = some s → s ≠ "" →
        (pwdMask e.password).length = s.length ∧
        ∀ ch ∈ (pwdMask e.password).data, ch = '*') ∧
      ((e.password = none ∨ e.password = some "") → pwdMask e.password = "N/A") ∧
      pwdMask e.password ≠ "" := by
  intro c db t g e hopen hcred
  refine ⟨?_, ?_, pwdMask_absent, pwdMask_ne_empty e.password⟩
  · rw [get_credentials_demo_ok_trace c db t g e hopen hcred]
    simp
  · intro s hs hne
    rw [hs]
    exact ⟨pwdMask_length hne, pwdMask_all_stars hne⟩

/-- Witness for C5: the four-character password prints as four
asterisks. -/
theorem get_credentials_password_always_masked_witness :
    Event.print ("✓ Password: " ++ pwdMask aliceEntry.password) ∈
      get_credentials_demo aliceCollab "pw.kdbx" "Site" false ∧
    (pwdMask aliceEntry.password).length = 4 ∧
    pwdMask aliceEntry.password = "****" := by
  have h := get_credentials_password_always_masked aliceCollab "pw.kdbx" "Site"
    false aliceEntry rfl rfl
  refine ⟨h.1, ?_, by decide⟩
  have := (h.2.1 "p4ss" rfl (by decide)).1
  simpa using this

theorem get_full_entry_demo_ok_trace (c : Collaborator) (db t : String)
    (g : Bool) (e : Entry) (hopen : c.openResult db g = none)
    (hcred : c.get_credentials t = .ok e) :
    get_full_entry_demo c db t g =
      [Event.print ("Getting full entry details for: '" ++ t ++
         "' (using " ++ inputMethodStr g ++ " input)"),
       .openAttempt db g true, .lookupCall t,
       .print "\n📋 Entry Details:",
       .print ("   Title: " ++ e.title),
       .print ("   Username: " ++ pyOrNA e.username),
       .print ("   Password: " ++ pwdMask e.password),
       .print ("   URL: " ++ pyOrNA e.url),
       .print ("   Notes: " ++ notesField e.notes),
       .print ("   Has Autotype: " ++ (if pyTruthy e.autotype_sequence then "Yes" else "No"))] ++
      (if pyTruthy e.autotype_sequence then
        [Event.print ("   Autotype Sequence: " ++ pyStr e.autotype_sequence)]
      else []) ++
      [.close db g] := by
  simp only [get_full_entry_demo, hopen, hcred]

/-- C9 counterexample: for notes equal to the empty string — length `0`,
hence at most 100 — the printed notes field is `N/A`, not the unchanged
notes value: the ``notes of length at most 100 are printed unchanged''
half of the claim fails at this input. -/
theorem get_full_entry_empty_notes_not_unchanged :
    emptyNotesEntry.notes = some "" ∧
    ("" : String).length ≤ 100 ∧
    notesField emptyNotesEntry.notes ≠ "" ∧
    Event.print "   Notes: N/A" ∈
      get_full_entry_demo emptyNotesCollab "pw.kdbx" "Site" false ∧
    Event.print ("   Notes: " ++ "") ∉
      get_full_entry_demo emptyNotesCollab "pw.kdbx" "Site" false := by
  refine ⟨rfl, by decide, by decide, ?_, ?_⟩ <;> decide

/-- C9 (amended): the printed notes field of a successful
`get-full-entry` run is `notesField` of the real notes: notes longer
than 100 characters print as their first 100 characters followed by the
ellipsis marker, nonempty notes of length at most 100 print unchanged,
and empty or absent notes print `N/A`. -/
theorem get_full_entry_notes_truncation :
    ∀ (c : Collaborator) (db t : String) (g : Bool) (e : Entry),
      c.openResult db g = none →
      c.get_credentials t = .ok e →
      Event.print ("   Notes: " ++ notesField e.notes) ∈ get_full_entry_demo c db t g ∧
      (∀ n, e.notes = some n → 100 < n.length →
        notesField e.notes = n.take 100 ++ "...") ∧
      (∀ n, e.notes = some n → n ≠ "" → n.length ≤ 100 →
        notesField e.notes = n) ∧
      ((e.notes = none ∨ e.notes = some "") → notesField e.notes = "N/A") := by
  intro c db t g e hopen hcred
  refine ⟨?_, ?_, ?_, ?_⟩
  · rw [get_full_entry_demo_ok_trace c db t g e hopen hcred]
    simp
  · intro n hn hlen
    have hne : n ≠ "" := by
      intro h0
      subst h0
      simp at hlen
    rw [hn]
    simp only [notesField, if_neg hne, if_pos hlen]
  · intro n hn hne hlen
    rw [hn]
    simp only [notesField, if_neg hne, if_neg (by omega : ¬ 100 < n.length)]
  · intro h
    rcases h with h | h <;> rw [h] <;> rfl

/-- Witness for the amended C9: 150-character notes print as the first
100 characters plus the ellipsis marker. -/
theorem get_full_entry_notes_truncation_witness :
    Event.print ("   Notes: " ++ notesField longNotesEntry.notes) ∈
      get_full_entry_demo longNotesCollab "pw.kdbx" "Site" false ∧
    notesField longNotesEntry.notes = longNotes.take 100 ++ "..." := by
  have h := get_full_entry_notes_truncation longNotesCollab "pw.kdbx" "Site"
    false longNotesEntry rfl rfl
  have hlen : 100 < longNotes.length := by
    show 100 < (List.replicate 150 'a').length
    simp
  exact ⟨h.1, h.2.1 longNotes rfl hlen⟩

theorem gui_comparison_never_attempts_gui (c : Collaborator) (x : Option String) :
    (gui_comparison_demo c x).1.countP guiOpenAttemptEv = 0 := by
  match x with
  | none => rfl
  | some raw =>
    by_cases h0 : (pyStrip raw) = ""
    · simp [gui_comparison_demo, h0, guiOpenAttemptEv]
    · cases hop : c.openResult (pyStrip raw) false with
      | some e =>
        simp [gui_comparison_demo, h0, hop, guiOpenAttemptEv]
      | none =>
        cases hcnt : c.get_entry_count (pyStrip raw) false with
        | error e =>
          simp [gui_comparison_demo, h0, hop, hcnt, guiOpenAttemptEv]
        | ok n =>
          simp [gui_comparison_demo, h0, hop, hcnt, logCallBadArity, guiOpenAttemptEv]

/-- C3 (divergence evaluated): with a database whose console-input open
and entry-count query both succeed, the comparison demo prints the
console success report and then — because the malformed `logging.log`
call raises `TypeError` inside the first `with` block — prints a console
*failure* report and returns: the graphical-input open is never
attempted and the two-session comparison never happens. -/
theorem compare_console_success_never_opens_gui :
    gui_comparison_demo compareCollab (some "test.kdbx") =
      ([.print "\n🔄 GUI vs Console Input Comparison Demo",
        .print (repChar 50 '='),
        .promptUser comparePrompt,
        .print "\n1️⃣  Testing with CONSOLE input:",
        .print "   You'll be prompted for password in the terminal",
        .openAttempt "test.kdbx" false true,
        .entryCountCall "test.kdbx" false,
        .print "   ✓ Successfully opened database with > 3 < entries",
        .close "test.kdbx" false,
        .print "   ❌ Console input failed: log() missing 1 required positional argument: 'msg'"],
       none) ∧
    (gui_comparison_demo compareCollab (some "test.kdbx")).1.countP guiOpenAttemptEv = 0 ∧
    Event.print "\n🎉 Comparison complete! Both input methods work." ∉
      (gui_comparison_demo compareCollab (some "test.kdbx")).1 := by
  refine ⟨by decide, by decide, by decide⟩

/-- C8: (1) when the console-input open fails, the comparison demo's
whole trace is exactly the header, the prompt, the console-pass banner,
the failed console open attempt and the single console-failure line — in
particular the graphical-input open is never attempted and nothing else
is reported; (2) a failed graphical-input open attempt in the trace would
imply the console success report is (still) present — which holds because
(3) no run of the comparison demo ever attempts a graphical-input open at
all (see the C3 divergence), so the second-pass-failure scenario cannot
occur. -/
theorem compare_console_failure_only_console_reported :
    (∀ (c : Collaborator) (raw : String) (e : PyErr),
      (pyStrip raw) ≠ "" →
      c.openResult (pyStrip raw) false = some e →
      gui_comparison_demo c (some raw) =
        ([.print "\n🔄 GUI vs Console Input Comparison Demo",
          .print (repChar 50 '='),
          .promptUser comparePrompt,
          .print "\n1️⃣  Testing with CONSOLE input:",
          .print "   You'll be prompted for password in the terminal",
          .openAttempt (pyStrip raw) false false,
          .print ("   ❌ Console input failed: " ++ errMsg e)], none)) ∧
    (∀ (c : Collaborator) (x : Option String) (p : String),
      Event.openAttempt p true false ∈ (gui_comparison_demo c x).1 →
      ∃ n : Nat, Event.print ("   ✓ Successfully opened database with > " ++
        toString n ++ " < entries") ∈ (gui_comparison_demo c x).1) ∧
    (∀ (c : Collaborator) (x : Option String),
      (gui_comparison_demo c x).1.countP guiOpenAttemptEv = 0) := by
  refine ⟨?_, ?_, gui_comparison_never_attempts_gui⟩
  · intro c raw e h0 hop
    simp only [gui_comparison_demo, if_neg h0, hop]
    rfl
  · intro c x p hmem
    exfalso
    have hpos : 0 < (gui_comparison_demo c x).1.countP guiOpenAttemptEv :=
      List.countP_pos_iff.mpr ⟨Event.openAttempt p true false, hmem, rfl⟩
    rw [gui_comparison_never_attempts_gui c x] at hpos
    exact Nat.lt_irrefl 0 hpos

/-- Witness for C8: a concrete console-open failure produces exactly the
abort trace. -/
theorem compare_console_failure_only_console_reported_witness :
    gui_comparison_demo lockedCollab (some "locked.kdbx") =
      ([.print "\n🔄 GUI vs Console Input Comparison Demo",
        .print (repChar 50 '='),
        .promptUser comparePrompt,
        .print "\n1️⃣  Testing with CONSOLE input:",
        .print "   You'll be prompted for password in the terminal",
        .openAttempt (pyStrip "locked.kdbx") false false,
        .print ("   ❌ Console input failed: " ++
          errMsg (.otherError "credentials verification failed"))], none) :=
  compare_console_failure_only_console_reported.1 lockedCollab "locked.kdbx"
    (.otherError "credentials verification failed") (by decide) rfl

/-- C4 counterexample: in interactive mode, choosing menu entry 5 runs
the comparison sub-demo, which *does* prompt the user for a database path
and opens a session on the user-given (non-hard-coded) path, so ``the
user is never prompted for a database path'' fails, as does ``the
database session is opened on the hard-coded path'' read over all
sessions of the invocation. -/
theorem interactive_choice5_prompts_for_db_path :
    Event.promptUser comparePrompt ∈
      interactive_mode compareCollab false ["5", "other.kdbx"] ∧
    Event.openAttempt "other.kdbx" false true ∈
      interactive_mode compareCollab false ["5", "other.kdbx"] ∧
    "other.kdbx" ≠ hardPath := by
  refine ⟨by decide, by decide, by decide⟩

/-- C4 (amended): the session that interactive mode itself opens (the
long-lived loop session) is always opened on the hard-coded path
`~\Losenordslista_SD_Personlig.kdbx`, immediately after the banner and
without any preceding prompt, and `--db` is ignored: an interactive
`mainRun` is unchanged under any replacement of the `db` argument.  (The
compare-input-methods sub-demo, menu choice 5, may still prompt for and
open its own separate path.) -/
theorem interactive_session_opened_on_hard_coded_path :
    (∀ (c : Collaborator) (g : Bool) (inputs : List String), ∃ rest,
      interactive_mode c g inputs =
        Event.print ("\n=== KeePass Interactive Mode (using " ++
          inputMethodStr g ++ " input) ===") ::
        Event.openAttempt hardPath g ((c.openResult hardPath g).isNone) :: rest) ∧
    (∀ (c : Collaborator) (a : Args) (inputs : List String) (d : Option String),
      a.interactive = true →
      mainRun c a inputs = mainRun c { a with db := d } inputs) := by
  constructor
  · intro c g inputs
    cases hop : c.openResult hardPath g with
    | some e =>
      refine ⟨[Event.print ("Error in interactive mode: " ++ errMsg e)], ?_⟩
      simp [interactive_mode, hop]
    | none =>
      refine ⟨(interactiveLoop c inputs).1 ++ [Event.close hardPath g] ++
        (match (interactiveLoop c inputs).2 with
         | none => []
         | some e => [Event.print ("Error in interactive mode: " ++ errMsg e)]), ?_⟩
      simp [interactive_mode, hop]
  · intro c a inputs d hInt
    simp [mainRun, hInt]

/-- Witness for the amended C4: replacing the `--db` value of a concrete
interactive invocation leaves the run unchanged. -/
theorem interactive_session_opened_on_hard_coded_path_witness :
    mainRun idleCollab argsInteractive ["6"] =
      mainRun idleCollab { argsInteractive with db := some "ignored.kdbx" } ["6"] :=
  interactive_session_opened_on_hard_coded_path.2 idleCollab argsInteractive ["6"]
    (some "ignored.kdbx") rfl

theorem firstSeenKeys_nil : firstSeenKeys [] = [] := by
  rw [firstSeenKeys.eq_def]

theorem firstSeenKeys_cons (u : Nat) (us : List Nat) :
    firstSeenKeys (u :: us) = u :: firstSeenKeys (us.filter (fun v => v ≠ u)) := by
  rw [firstSeenKeys.eq_def]

theorem map_fst_update (d : List (Nat × Entry)) (u : Nat) (e : Entry) :
    (d.map (fun p => if p.1 = u then (p.1, e) else p)).map Prod.fst =
      d.map Prod.fst := by
  induction d with
  | nil => rfl
  | cons p d ih =>
    simp only [List.map_cons, ih, List.cons.injEq, and_true]
    split <;> rfl

theorem insertDict_map_fst (d : List (Nat × Entry)) (e : Entry) :
    (insertDict d e).map Prod.fst =
      if d.any (fun p => p.1 = e.uuid) then d.map Prod.fst
      else d.map Prod.fst ++ [e.uuid] := by
  by_cases h : d.any (fun p => p.1 = e.uuid) = true
  · simp only [insertDict, h, if_true]
    exact map_fst_update d e.uuid e
  · simp [insertDict, h]

theorem any_map_fst (d : List (Nat × Entry)) (u : Nat) :
    (d.map Prod.fst).any (fun v => v = u) = d.any (fun p => p.1 = u) := by
  induction d with
  | nil => rfl
  | cons p d ih => simp [List.any_cons, ih]

theorem foldl_insertDict_map_fst :
    ∀ (es : List Entry) (d : List (Nat × Entry)),
      ((es.foldl insertDict d).map Prod.fst) =
        d.map Prod.fst ++ freshKeys (d.map Prod.fst) es := by
  intro es
  induction es with
  | nil => intro d; simp [freshKeys]
  | cons e es ih =>
    intro d
    rw [List.foldl_cons, ih, insertDict_map_fst]
    by_cases h : d.any (fun p => p.1 = e.uuid) = true
    · rw [if_pos h]
      have hf : (d.map Prod.fst).any (fun v => v = e.uuid) = true := by
        rw [any_map_fst]; exact h
      simp only [freshKeys, hf, if_true]
    · rw [if_neg h]
      have hf : ¬ (d.map Prod.fst).any (fun v => v = e.uuid) = true := by
        rw [any_map_fst]; exact h
      simp only [freshKeys, hf, if_false, List.map_append]
      simp [List.append_assoc]

theorem freshKeys_eq_firstSeen :
    ∀ (es : List Entry) (seen : List Nat),
      freshKeys seen es =
        firstSeenKeys ((es.map Entry.uuid).filter
          (fun u => !seen.any (fun v => v = u))) := by
  intro es
  induction es with
  | nil => intro seen; simp [freshKeys, firstSeenKeys_nil]
  | cons e es ih =>
    intro seen
    simp only [List.map_cons, List.filter_cons]
    cases hany : seen.any (fun v => v = e.uuid) with
    | true =>
      simp only [freshKeys, hany, if_true, Bool.not_true, Bool.false_eq_true,
        if_false]
      exact ih seen
    | false =>
      simp only [freshKeys, hany, Bool.false_eq_true, if_false, Bool.not_false,
        if_true]
      rw [firstSeenKeys_cons, List.filter_filter]
      rw [ih (seen ++ [e.uuid])]
      congr 1
      congr 1
      apply List.filter_congr
      intro u _
      by_cases hu : u = e.uuid
      · subst hu
        simp [List.any_append]
      · simp [List.any_append, hu, Ne.symm hu]

theorem pyDict_keys (es : List Entry) :
    (pyDict es).map Prod.fst = firstSeenKeys (es.map Entry.uuid) := by
  rw [pyDict, foldl_insertDict_map_fst]
  rw [freshKeys_eq_firstSeen]
  simp

theorem insertDict_snd_uuid (d : List (Nat × Entry)) (e : Entry)
    (h : ∀ p ∈ d, (p.2).uuid = p.1) :
    ∀ p ∈ insertDict d e, (p.2).uuid = p.1 := by
  intro p hp
  cases hc : d.any (fun q => q.1 = e.uuid) with
  | true =>
    simp only [insertDict, hc, if_true, List.mem_map] at hp
    obtain ⟨q, hq, rfl⟩ := hp
    by_cases hqe : q.1 = e.uuid
    · rw [if_pos hqe]
      exact hqe.symm
    · rw [if_neg hqe]
      exact h q hq
  | false =>
    simp only [insertDict, hc, Bool.false_eq_true, if_false, List.mem_append,
      List.mem_singleton] at hp
    rcases hp with hp | hp
    · exact h p hp
    · subst hp
      rfl

theorem foldl_insertDict_snd_uuid :
    ∀ (es : List Entry) (d : List (Nat × Entry)),
      (∀ p ∈ d, (p.2).uuid = p.1) →
      ∀ p ∈ es.foldl insertDict d, (p.2).uuid = p.1 := by
  intro es
  induction es with
  | nil => intro d h; simpa using h
  | cons e es ih =>
    intro d h
    rw [List.foldl_cons]
    exact ih (insertDict d e) (insertDict_snd_uuid d e h)

theorem dedupByUuid_map_uuid (es : List Entry) :
    (dedupByUuid es).map Entry.uuid = firstSeenKeys (es.map Entry.uuid) := by
  rw [← pyDict_keys, dedupByUuid, List.map_map]
  apply List.map_congr_left
  intro p hp
  exact foldl_insertDict_snd_uuid es [] (by simp) p hp

theorem mem_firstSeenKeys :
    ∀ (l : List Nat) (u : Nat), u ∈ firstSeenKeys l ↔ u ∈ l := by
  intro l
  induction l using firstSeenKeys.induct with
  | case1 => intro u; simp [firstSeenKeys_nil]
  | case2 x xs ih =>
    intro u
    rw [firstSeenKeys_cons]
    by_cases hu : u = x
    · subst hu; simp
    · simp only [List.mem_cons, hu, false_or]
      rw [ih u]
      simp [List.mem_filter, hu]

theorem nodup_firstSeenKeys : ∀ (l : List Nat), (firstSeenKeys l).Nodup := by
  intro l
  induction l using firstSeenKeys.induct with
  | case1 => simp [firstSeenKeys_nil]
  | case2 x xs ih =>
    rw [firstSeenKeys_cons]
    refine List.Nodup.cons ?_ ih
    intro hx
    rw [mem_firstSeenKeys] at hx
    simp [List.mem_filter] at hx

/-- C7: on every successful search run, the collaborator search is
invoked with the term and the result cap 10 (the `searchCall` event), and
the printed list is the uuid-de-duplicated result list: its uuids are the
first occurrences of the results' uuids in first-seen order, each
occurring exactly once; when the de-duplicated list is empty the
no-matches message is printed, otherwise the numbered per-entry blocks
appear contiguously in the trace. -/
theorem search_capped_at_ten_and_deduplicated_by_uuid :
    ∀ (c : Collaborator) (db term : String) (g : Bool) (es : List Entry),
      c.openResult db g = none →
      c.search_entries term 10 = .ok es →
      Event.searchCall term 10 ∈ search_entries_demo c db term g ∧
      (dedupByUuid es).map Entry.uuid = firstSeenKeys (es.map Entry.uuid) ∧
      (∀ u, u ∈ es.map Entry.uuid → ((dedupByUuid es).map Entry.uuid).count u = 1) ∧
      (dedupByUuid es = [] →
        Event.print ("❌ No entries found containing '" ++ term ++ "'.") ∈
          search_entries_demo c db term g) ∧
      (dedupByUuid es ≠ [] →
        List.IsInfix (numbered 1 (dedupByUuid es)) (search_entries_demo c db term g)) := by
  intro c db term g es hop hsearch
  refine ⟨?_, dedupByUuid_map_uuid es, ?_, ?_, ?_⟩
  · simp only [search_entries_demo, hop, hsearch]
    by_cases hemp : (dedupByUuid es).isEmpty = true <;> simp [hemp]
  · intro u hu
    rw [dedupByUuid_map_uuid]
    exact List.count_eq_one_of_mem (nodup_firstSeenKeys _)
      ((mem_firstSeenKeys _ u).mpr hu)
  · intro hemp
    simp only [search_entries_demo, hop, hsearch, hemp, List.isEmpty_nil, if_true]
    simp
  · intro hne
    have hemp : (dedupByUuid es).isEmpty = false := by
      cases hd : dedupByUuid es with
      | nil => exact absurd hd hne
      | cons a l => rfl
    simp only [search_entries_demo, hop, hsearch, hemp, Bool.false_eq_true,
      if_false]
    refine ⟨[Event.print ("🔍 Searching for entries containing '" ++ term ++
        "' (using " ++ inputMethodStr g ++ " input):"),
      Event.openAttempt db g true, Event.searchCall term 10,
      Event.print ("\n✓ Found " ++ toString (dedupByUuid es).length ++
        " matching entries:"),
      Event.print (repChar 60 '-')], [Event.close db g], ?_⟩
    simp

/-- Witness for C7: with duplicate uuids 7, 7, 9, the search call carries
cap 10 and the de-duplicated list has uuids `[7, 9]`, with uuid 7
occurring exactly once. -/
theorem search_capped_at_ten_and_deduplicated_by_uuid_witness :
    Event.searchCall "git" 10 ∈ search_entries_demo dupSearchCollab "pw.kdbx" "git" false ∧
    (dedupByUuid [dupEntryA, dupEntryB, dupEntryC]).map Entry.uuid = [7, 9] ∧
    ((dedupByUuid [dupEntryA, dupEntryB, dupEntryC]).map Entry.uuid).count 7 = 1 := by
  have h := search_capped_at_ten_and_deduplicated_by_uuid dupSearchCollab
    "pw.kdbx" "git" false [dupEntryA, dupEntryB, dupEntryC] rfl rfl
  exact ⟨h.1, by decide, h.2.2.1 7 (by decide)⟩

theorem acquiredCount_append (l1 l2 : List Event) :
    acquiredCount (l1 ++ l2) = acquiredCount l1 + acquiredCount l2 :=
  List.countP_append _ _ _

theorem releasedCount_append (l1 l2 : List Event) :
    releasedCount (l1 ++ l2) = releasedCount l1 + releasedCount l2 :=
  List.countP_append _ _ _

theorem entryBlock_all_prints (i : Nat) (e : Entry) :
    ∀ ev ∈ entryBlock i e, ∃ s, ev = Event.print s := by
  intro ev h
  unfold entryBlock at h
  rcases List.mem_append.mp h with h1 | h1
  · rcases List.mem_append.mp h1 with h2 | h2
    · rcases List.mem_append.mp h2 with h3 | h3
      · exact ⟨_, List.mem_singleton.mp h3⟩
      · split at h3
        · exact ⟨_, List.mem_singleton.mp h3⟩
        · simp at h3
    · split at h2
      · exact ⟨_, List.mem_singleton.mp h2⟩
      · simp at h2
  · exact ⟨_, List.mem_singleton.mp h1⟩

theorem numbered_all_prints :
    ∀ (i : Nat) (es : List Entry), ∀ ev ∈ numbered i es, ∃ s, ev = Event.print s := by
  intro i es
  induction es generalizing i with
  | nil =>
    intro ev h
    simp [numbered] at h
  | cons e es ih =>
    intro ev h
    rw [numbered] at h
    rcases List.mem_append.mp h with h1 | h1
    · exact entryBlock_all_prints i e ev h1
    · exact ih (i + 1) ev h1

theorem acquiredCount_numbered (i : Nat) (es : List Entry) :
    acquiredCount (numbered i es) = 0 := by
  rw [acquiredCount, List.countP_eq_zero]
  intro ev hev
  obtain ⟨s, rfl⟩ := numbered_all_prints i es ev hev
  simp

theorem releasedCount_numbered (i : Nat) (es : List Entry) :
    releasedCount (numbered i es) = 0 := by
  rw [releasedCount, List.countP_eq_zero]
  intro ev hev
  obtain ⟨s, rfl⟩ := numbered_all_prints i es ev hev
  simp

theorem get_credentials_demo_balanced (c : Collaborator) (db t : String)
    (g : Bool) :
    acquiredCount (get_credentials_demo c db t g) =
      releasedCount (get_credentials_demo c db t g) := by
  unfold get_credentials_demo
  cases c.openResult db g with
  | some e => cases e <;> rfl
  | none =>
    cases c.get_credentials t with
    | ok entry => rfl
    | error e => cases e <;> rfl

theorem get_full_entry_demo_balanced (c : Collaborator) (db t : String)
    (g : Bool) :
    acquiredCount (get_full_entry_demo c db t g) =
      releasedCount (get_full_entry_demo c db t g) := by
  unfold get_full_entry_demo
  cases c.openResult db g with
  | some e => cases e <;> rfl
  | none =>
    cases c.get_credentials t with
    | ok entry =>
      cases hpt : pyTruthy entry.autotype_sequence <;>
        simp only [hpt, Bool.false_eq_true, if_false, if_true] <;> rfl
    | error e => cases e <;> rfl

theorem autotype_demo_balanced (c : Collaborator) (db t : String) (g : Bool) :
    acquiredCount (autotype_demo c db t g) =
      releasedCount (autotype_demo c db t g) := by
  unfold autotype_demo
  cases c.openResult db g with
  | some e => cases e <;> rfl
  | none =>
    cases c.use_KeePass_sequence t with
    | ok u => rfl
    | error e => cases e <;> rfl

theorem search_entries_demo_balanced (c : Collaborator) (db term : String)
    (g : Bool) :
    acquiredCount (search_entries_demo c db term g) =
      releasedCount (search_entries_demo c db term g) := by
  unfold search_entries_demo
  cases c.openResult db g with
  | some e => rfl
  | none =>
    cases c.search_entries term 10 with
    | error e => rfl
    | ok es =>
      cases hemp : (dedupByUuid es).isEmpty with
      | true => simp only [hemp, if_true]; rfl
      | false =>
        simp only [hemp, Bool.false_eq_true, if_false]
        simp only [acquiredCount_append, releasedCount_append,
          acquiredCount_numbered, releasedCount_numbered]
        rfl

theorem gui_comparison_demo_balanced (c : Collaborator) (x : Option String) :
    acquiredCount (gui_comparison_demo c x).1 =
      releasedCount (gui_comparison_demo c x).1 := by
  match x with
  | none => rfl
  | some raw =>
    by_cases h0 : pyStrip raw = ""
    · simp only [gui_comparison_demo, if_pos h0]
      rfl
    · simp only [gui_comparison_demo, if_neg h0]
      cases c.openResult (pyStrip raw) false with
      | some e => rfl
      | none =>
        cases c.get_entry_count (pyStrip raw) false with
        | error e => rfl
        | ok n => rfl

theorem acquiredCount_nil : acquiredCount [] = 0 := rfl

theorem releasedCount_nil : releasedCount [] = 0 := rfl

theorem acquiredCount_menu : acquiredCount menuEvents = 0 := rfl

theorem releasedCount_menu : releasedCount menuEvents = 0 := rfl

theorem acquiredCount_cons_print (s : String) (l : List Event) :
    acquiredCount (Event.print s :: l) = acquiredCount l := rfl

theorem acquiredCount_cons_prompt (s : String) (l : List Event) :
    acquiredCount (Event.promptUser s :: l) = acquiredCount l := rfl

theorem acquiredCount_cons_open_true (p : String) (g : Bool) (l : List Event) :
    acquiredCount (Event.openAttempt p g true :: l) = acquiredCount l + 1 := by
  simp [acquiredCount, List.countP_cons]

theorem acquiredCount_cons_open_false (p : String) (g : Bool) (l : List Event) :
    acquiredCount (Event.openAttempt p g false :: l) = acquiredCount l := rfl

theorem acquiredCount_cons_close (p : String) (g : Bool) (l : List Event) :
    acquiredCount (Event.close p g :: l) = acquiredCount l := rfl

theorem acquiredCount_cons_lookup (t : String) (l : List Event) :
    acquiredCount (Event.lookupCall t :: l) = acquiredCount l := rfl

theorem acquiredCount_cons_search (t : String) (n : Nat) (l : List Event) :
    acquiredCount (Event.searchCall t n :: l) = acquiredCount l := rfl

theorem acquiredCount_cons_autotype (t : String) (l : List Event) :
    acquiredCount (Event.autotypeCall t :: l) = acquiredCount l := rfl

theorem acquiredCount_cons_entryCount (p : String) (g : Bool) (l : List Event) :
    acquiredCount (Event.entryCountCall p g :: l) = acquiredCount l := rfl

theorem acquiredCount_cons_entryExists (t : String) (l : List Event) :
    acquiredCount (Event.entryExistsCall t :: l) = acquiredCount l := rfl

theorem acquiredCount_cons_sleep (n : Nat) (l : List Event) :
    acquiredCount (Event.sleep n :: l) = acquiredCount l := rfl

theorem releasedCount_cons_print (s : String) (l : List Event) :
    releasedCount (Event.print s :: l) = releasedCount l := rfl

theorem releasedCount_cons_prompt (s : String) (l : List Event) :
    releasedCount (Event.promptUser s :: l) = releasedCount l := rfl

theorem releasedCount_cons_open (p : String) (g b : Bool) (l : List Event) :
    releasedCount (Event.openAttempt p g b :: l) = releasedCount l := rfl

theorem releasedCount_cons_close (p : String) (g : Bool) (l : List Event) :
    releasedCount (Event.close p g :: l) = releasedCount l + 1 := by
  simp [releasedCount, List.countP_cons]

theorem releasedCount_cons_lookup (t : String) (l : List Event) :
    releasedCount (Event.lookupCall t :: l) = releasedCount l := rfl

theorem releasedCount_cons_search (t : String) (n : Nat) (l : List Event) :
    releasedCount (Event.searchCall t n :: l) = releasedCount l := rfl

theorem releasedCount_cons_autotype (t : String) (l : List Event) :
    releasedCount (Event.autotypeCall t :: l) = releasedCount l := rfl

theorem releasedCount_cons_entryCount (p : String) (g : Bool) (l : List Event) :
    releasedCount (Event.entryCountCall p g :: l) = releasedCount l := rfl

theorem releasedCount_cons_entryExists (t : String) (l : List Event) :
    releasedCount (Event.entryExistsCall t :: l) = releasedCount l := rfl

theorem releasedCount_cons_sleep (n : Nat) (l : List Event) :
    releasedCount (Event.sleep n :: l) = releasedCount l := rfl

theorem interactiveLoopAux_balanced (c : Collaborator) :
    ∀ (fuel : Nat) (inputs : List String),
      acquiredCount (interactiveLoopAux c fuel inputs).1 =
        releasedCount (interactiveLoopAux c fuel inputs).1 := by
  intro fuel
  induction fuel with
  | zero =>
    intro inputs
    cases inputs <;> rfl
  | succ fuel ih =>
    intro inputs
    cases inputs with
    | nil => rfl
    | cons choiceRaw rest =>
      show acquiredCount (interactiveBody c (interactiveLoopAux c fuel) choiceRaw rest).1 =
        releasedCount (interactiveBody c (interactiveLoopAux c fuel) choiceRaw rest).1
      unfold interactiveBody
      repeat' split
      all_goals simp only [acquiredCount_append, releasedCount_append,
        acquiredCount_menu, releasedCount_menu, acquiredCount_nil, releasedCount_nil,
        acquiredCount_cons_print, acquiredCount_cons_prompt,
        acquiredCount_cons_lookup, acquiredCount_cons_entryExists,
        acquiredCount_cons_autotype,
        releasedCount_cons_print, releasedCount_cons_prompt,
        releasedCount_cons_lookup, releasedCount_cons_entryExists,
        releasedCount_cons_autotype,
        ih, gui_comparison_demo_balanced]

theorem interactiveLoop_balanced (c : Collaborator) (inputs : List String) :
    acquiredCount (interactiveLoop c inputs).1 =
      releasedCount (interactiveLoop c inputs).1 :=
  interactiveLoopAux_balanced c inputs.length inputs

theorem interactive_mode_balanced (c : Collaborator) (g : Bool)
    (inputs : List String) :
    acquiredCount (interactive_mode c g inputs) =
      releasedCount (interactive_mode c g inputs) := by
  unfold interactive_mode
  cases hop : c.openResult hardPath g with
  | some e => rfl
  | none =>
    cases hr : (interactiveLoop c inputs).2 <;>
      simp only [hr, acquiredCount_append, releasedCount_append,
        acquiredCount_cons_print, releasedCount_cons_print,
        acquiredCount_cons_open_true, releasedCount_cons_open,
        acquiredCount_cons_close, releasedCount_cons_close,
        acquiredCount_nil, releasedCount_nil,
        interactiveLoop_balanced] <;>
      omega

theorem mainRun_balanced (c : Collaborator) (a : Args) (inputs : List String) :
    acquiredCount (mainRun c a inputs).1 =
      releasedCount (mainRun c a inputs).1 := by
  cases hInt : a.interactive with
  | true =>
    simp only [mainRun, hInt, if_true]
    exact interactive_mode_balanced c a.gui inputs
  | false =>
    cases hdb : a.db with
    | none =>
      simp only [mainRun, hInt, Bool.false_eq_true, if_false, hdb]
      rfl
    | some d =>
      rw [mainRun_crashes c a inputs d hInt hdb]
      rfl

theorem demo_minimalistic_direct_session_leak (c : Collaborator)
    (h : c.openResult "C:\\Passwords.kdbx" false = none) :
    acquiredCount (demo_minimalistic c) =
      releasedCount (demo_minimalistic c) + 1 := by
  unfold demo_minimalistic
  simp only [h]
  cases c.get_entry_count "C:\\Passwords.kdbx" false <;> rfl

/-- C10 counterexample: when the database opens succeed, the minimalistic
demo acquires two sessions (one per block) but releases only one — the
directly-constructed `kp2` session is never released, so ``every session
is released exactly once'' fails on this run. -/
theorem demo_minimalistic_leaks_second_session :
    acquiredCount (demo_minimalistic miniCollab) = 2 ∧
    releasedCount (demo_minimalistic miniCollab) = 1 := by
  exact ⟨rfl, rfl⟩

/-- C10 (amended): every database session acquired by demo.py is released
exactly once on every exit path — each single-shot handler, the
comparison demo, interactive mode (with its loop, on every input
sequence, including propagating failures), and `main` produce traces with
as many releases as successful acquisitions — and in the minimalistic
demo only the first, context-managed block releases its session: its
second, directly-constructed session is never released, leaving one more
acquisition than release whenever its open succeeds. -/
theorem sessions_released_exactly_once_except_minimalistic_direct :
    (∀ (c : Collaborator) (db t : String) (g : Bool),
      acquiredCount (get_credentials_demo c db t g) =
        releasedCount (get_credentials_demo c db t g)) ∧
    (∀ (c : Collaborator) (db t : String) (g : Bool),
      acquiredCount (get_full_entry_demo c db t g) =
        releasedCount (get_full_entry_demo c db t g)) ∧
    (∀ (c : Collaborator) (db t : String) (g : Bool),
      acquiredCount (autotype_demo c db t g) =
        releasedCount (autotype_demo c db t g)) ∧
    (∀ (c : Collaborator) (db term : String) (g : Bool),
      acquiredCount (search_entries_demo c db term g) =
        releasedCount (search_entries_demo c db term g)) ∧
    (∀ (c : Collaborator) (x : Option String),
      acquiredCount (gui_comparison_demo c x).1 =
        releasedCount (gui_comparison_demo c x).1) ∧
    (∀ (c : Collaborator) (g : Bool) (inputs : List String),
      acquiredCount (interactive_mode c g inputs) =
        releasedCount (interactive_mode c g inputs)) ∧
    (∀ (c : Collaborator) (a : Args) (inputs : List String),
      acquiredCount (mainRun c a inputs).1 =
        releasedCount (mainRun c a inputs).1) ∧
    (∀ (c : Collaborator), c.openResult "C:\\Passwords.kdbx" false = none →
      acquiredCount (demo_minimalistic c) =
        releasedCount (demo_minimalistic c) + 1) :=
  ⟨get_credentials_demo_balanced, get_full_entry_demo_balanced,
   autotype_demo_balanced, search_entries_demo_balanced,
   gui_comparison_demo_balanced, interactive_mode_balanced,
   mainRun_balanced, demo_minimalistic_direct_session_leak⟩

/-- Witness for the amended C10: at a concrete collaborator whose opens
succeed, the minimalistic demo acquires one session more than it
releases. -/
theorem sessions_released_exactly_once_except_minimalistic_direct_witness :
    acquiredCount (demo_minimalistic miniCollab) =
      releasedCount (demo_minimalistic miniCollab) + 1 :=
  sessions_released_exactly_once_except_minimalistic_direct.2.2.2.2.2.2.2
    miniCollab rfl

theorem string_length_zero_iff (s : String) : s.length = 0 ↔ s = "" := by
  cases s with
  | mk l =>
    constructor
    · intro h
      have h0 : l = [] := List.eq_nil_of_length_eq_zero h
      subst h0
      rfl
    · intro h
      rw [h]
      rfl

theorem pwdMask_equiv {p q : Option String} (h : pwdEquiv p q) :
    pwdMask p = pwdMask q := by
  match p, q with
  | none, none => rfl
  | some a, some b =>
    have hl : a.length = b.length := h
    by_cases ha : a = ""
    · have hb : b = "" := by
        rw [← string_length_zero_iff] at ha
        rw [← string_length_zero_iff, ← hl]
        exact ha
      rw [ha, hb]
    · have hb : ¬ b = "" := by
        intro hb0
        apply ha
        rw [← string_length_zero_iff] at hb0 ⊢
        rw [hl]
        exact hb0
      simp only [pwdMask, if_neg ha, if_neg hb, hl]

theorem get_credentials_demo_congr {c1 c2 : Collaborator}
    (h : collabEquiv c1 c2) (db t : String) (g : Bool) :
    get_credentials_demo c1 db t g = get_credentials_demo c2 db t g := by
  obtain ⟨hopen, hcred, hsearch, hseq, hcount, hexists⟩ := h
  unfold get_credentials_demo
  rw [hopen]
  cases c2.openResult db g with
  | some e => rfl
  | none =>
    have hcc := hcred t
    cases hx1 : c1.get_credentials t with
    | ok e1 =>
      cases hx2 : c2.get_credentials t with
      | ok e2 =>
        rw [hx1, hx2] at hcc
        simp only [credEquiv] at hcc
        obtain ⟨ht, hu, hp, hurl, hn, ha, hid⟩ := hcc
        simp only [hx1, hx2, hu, pwdMask_equiv hp]
      | error e2 =>
        rw [hx1, hx2] at hcc
        simp only [credEquiv] at hcc
    | error e1 =>
      cases hx2 : c2.get_credentials t with
      | ok e2 =>
        rw [hx1, hx2] at hcc
        simp only [credEquiv] at hcc
      | error e2 =>
        rw [hx1, hx2] at hcc
        simp only [credEquiv] at hcc
        subst hcc
        rfl

theorem get_full_entry_demo_congr {c1 c2 : Collaborator}
    (h : collabEquiv c1 c2) (db t : String) (g : Bool) :
    get_full_entry_demo c1 db t g = get_full_entry_demo c2 db t g := by
  obtain ⟨hopen, hcred, hsearch, hseq, hcount, hexists⟩ := h
  unfold get_full_entry_demo
  rw [hopen]
  cases c2.openResult db g with
  | some e => rfl
  | none =>
    have hcc := hcred t
    cases hx1 : c1.get_credentials t with
    | ok e1 =>
      cases hx2 : c2.get_credentials t with
      | ok e2 =>
        rw [hx1, hx2] at hcc
        simp only [credEquiv] at hcc
        obtain ⟨ht, hu, hp, hurl, hn, ha, hid⟩ := hcc
        simp only [hx1, hx2, ht, hu, hurl, hn, ha, pwdMask_equiv hp]
      | error e2 =>
        rw [hx1, hx2] at hcc
        simp only [credEquiv] at hcc
    | error e1 =>
      cases hx2 : c2.get_credentials t with
      | ok e2 =>
        rw [hx1, hx2] at hcc
        simp only [credEquiv] at hcc
      | error e2 =>
        rw [hx1, hx2] at hcc
        simp only [credEquiv] at hcc
        subst hcc
        rfl

theorem autotype_demo_congr {c1 c2 : Collaborator}
    (h : collabEquiv c1 c2) (db t : String) (g : Bool) :
    autotype_demo c1 db t g = autotype_demo c2 db t g := by
  obtain ⟨hopen, hcred, hsearch, hseq, hcount, hexists⟩ := h
  unfold autotype_demo
  rw [hopen, hseq]

theorem gui_comparison_demo_congr {c1 c2 : Collaborator}
    (h : collabEquiv c1 c2) (x : Option String) :
    gui_comparison_demo c1 x = gui_comparison_demo c2 x := by
  obtain ⟨hopen, hcred, hsearch, hseq, hcount, hexists⟩ := h
  unfold gui_comparison_demo
  rw [hopen, hcount]

theorem demo_minimalistic_congr {c1 c2 : Collaborator}
    (h : collabEquiv c1 c2) :
    demo_minimalistic c1 = demo_minimalistic c2 := by
  obtain ⟨hopen, hcred, hsearch, hseq, hcount, hexists⟩ := h
  unfold demo_minimalistic
  rw [hopen, hcount]

theorem any_congr_pairEquiv {d1 d2 : List (Nat × Entry)}
    (hd : List.Forall₂ pairEquiv d1 d2) (u : Nat) :
    d1.any (fun p => p.1 = u) = d2.any (fun p => p.1 = u) := by
  induction hd with
  | nil => rfl
  | cons hpq _ ih => simp [List.any_cons, ih, hpq.1]

theorem update_map_congr {d1 d2 : List (Nat × Entry)} {e1 e2 : Entry}
    (hd : List.Forall₂ pairEquiv d1 d2) (he : entryEquiv e1 e2) :
    List.Forall₂ pairEquiv
      (d1.map (fun p => if p.1 = e1.uuid then (p.1, e1) else p))
      (d2.map (fun p => if p.1 = e2.uuid then (p.1, e2) else p)) := by
  have huuid : e1.uuid = e2.uuid := he.2.2.2.2.2.2
  induction hd with
  | nil => exact List.Forall₂.nil
  | @cons p q l1 l2 hpq htail ih =>
    simp only [List.map_cons]
    refine List.Forall₂.cons ?_ ih
    by_cases hk : p.1 = e1.uuid
    · have hk2 : q.1 = e2.uuid := by
        rw [← hpq.1, ← huuid]
        exact hk
      rw [if_pos hk, if_pos hk2]
      exact ⟨hpq.1, he⟩
    · have hk2 : ¬ q.1 = e2.uuid := by
        rw [← hpq.1, ← huuid]
        exact hk
      rw [if_neg hk, if_neg hk2]
      exact hpq

theorem insertDict_congr {d1 d2 : List (Nat × Entry)} {e1 e2 : Entry}
    (hd : List.Forall₂ pairEquiv d1 d2) (he : entryEquiv e1 e2) :
    List.Forall₂ pairEquiv (insertDict d1 e1) (insertDict d2 e2) := by
  have huuid : e1.uuid = e2.uuid := he.2.2.2.2.2.2
  have hany : d1.any (fun p => p.1 = e1.uuid) = d2.any (fun p => p.1 = e2.uuid) := by
    rw [huuid]
    exact any_congr_pairEquiv hd e2.uuid
  unfold insertDict
  rw [hany]
  cases hc : d2.any (fun p => p.1 = e2.uuid) with
  | true =>
    simp only [if_true]
    exact update_map_congr hd he
  | false =>
    simp only [Bool.false_eq_true, if_false]
    exact List.rel_append hd (List.Forall₂.cons ⟨huuid, he⟩ List.Forall₂.nil)

theorem foldl_insertDict_congr :
    ∀ {es1 es2 : List Entry}, List.Forall₂ entryEquiv es1 es2 →
      ∀ {d1 d2 : List (Nat × Entry)}, List.Forall₂ pairEquiv d1 d2 →
      List.Forall₂ pairEquiv (es1.foldl insertDict d1) (es2.foldl insertDict d2) := by
  intro es1 es2 hes
  induction hes with
  | nil => intro d1 d2 hd; simpa using hd
  | cons he htail ih =>
    intro d1 d2 hd
    simp only [List.foldl_cons]
    exact ih (insertDict_congr hd he)

theorem map_snd_congr :
    ∀ {d1 d2 : List (Nat × Entry)}, List.Forall₂ pairEquiv d1 d2 →
      List.Forall₂ entryEquiv (d1.map Prod.snd) (d2.map Prod.snd) := by
  intro d1 d2 h
  induction h with
  | nil => exact List.Forall₂.nil
  | cons hpq _ ih =>
    simp only [List.map_cons]
    exact List.Forall₂.cons hpq.2 ih

theorem dedupByUuid_congr {es1 es2 : List Entry}
    (h : List.Forall₂ entryEquiv es1 es2) :
    List.Forall₂ entryEquiv (dedupByUuid es1) (dedupByUuid es2) :=
  map_snd_congr (foldl_insertDict_congr h
    (List.Forall₂.nil : List.Forall₂ pairEquiv [] []))

theorem entryBlock_congr {e1 e2 : Entry} (h : entryEquiv e1 e2) (i : Nat) :
    entryBlock i e1 = entryBlock i e2 := by
  obtain ⟨ht, hu, hp, hurl, hn, ha, hid⟩ := h
  unfold entryBlock
  rw [ht, hu, hurl]

theorem numbered_congr :
    ∀ {es1 es2 : List Entry}, List.Forall₂ entryEquiv es1 es2 →
      ∀ (i : Nat), numbered i es1 = numbered i es2 := by
  intro es1 es2 h
  induction h with
  | nil => intro i; rfl
  | cons he htail ih =>
    intro i
    simp only [numbered]
    rw [entryBlock_congr he i, ih (i + 1)]

theorem search_entries_demo_congr {c1 c2 : Collaborator}
    (h : collabEquiv c1 c2) (db term : String) (g : Bool) :
    search_entries_demo c1 db term g = search_entries_demo c2 db term g := by
  obtain ⟨hopen, hcred, hsearch, hseq, hcount, hexists⟩ := h
  unfold search_entries_demo
  rw [hopen]
  cases c2.openResult db g with
  | some e => rfl
  | none =>
    have hss := hsearch term 10
    cases hx1 : c1.search_entries term 10 with
    | ok es1 =>
      cases hx2 : c2.search_entries term 10 with
      | ok es2 =>
        rw [hx1, hx2] at hss
        simp only [searchEquiv] at hss
        have hd := dedupByUuid_congr hss
        have hlen := List.Forall₂.length_eq hd
        simp only [hx1, hx2]
        have hemp : (dedupByUuid es2).isEmpty = (dedupByUuid es1).isEmpty := by
          cases h1 : dedupByUuid es1 with
          | nil =>
            have h2 : dedupByUuid es2 = [] :=
              List.eq_nil_of_length_eq_zero (by rw [← hlen, h1]; rfl)
            rw [h2]
          | cons a l =>
            cases h2 : dedupByUuid es2 with
            | nil =>
              rw [h1, h2] at hlen
              simp at hlen
            | cons b m => rfl
        rw [hemp]
        cases hc : (dedupByUuid es1).isEmpty with
        | true => rfl
        | false =>
          simp only [Bool.false_eq_true, if_false]
          rw [hlen, numbered_congr hd 1]
      | error e2 =>
        rw [hx1, hx2] at hss
        simp only [searchEquiv] at hss
    | error e1 =>
      cases hx2 : c2.search_entries term 10 with
      | ok es2 =>
        rw [hx1, hx2] at hss
        simp only [searchEquiv] at hss
      | error e2 =>
        rw [hx1, hx2] at hss
        simp only [searchEquiv] at hss
        subst hss
        rfl

theorem interactiveBody_congr {c1 c2 : Collaborator} (h : collabEquiv c1 c2)
    {r1 r2 : List String → List Event × Option PyErr}
    (hr : ∀ l, r1 l = r2 l) (choiceRaw : String) (rest : List String) :
    interactiveBody c1 r1 choiceRaw rest = interactiveBody c2 r2 choiceRaw rest := by
  have hg : ∀ x, gui_comparison_demo c1 x = gui_comparison_demo c2 x :=
    fun x => gui_comparison_demo_congr h x
  obtain ⟨hopen, hcred, hsearch, hseq, hcount, hexists⟩ := h
  unfold interactiveBody
  simp only [hexists, hseq, hr, hg]
  by_cases h1 : pyStrip choiceRaw = "1"
  · rw [if_pos h1, if_pos h1]
  · rw [if_neg h1, if_neg h1]
    by_cases h2 : pyStrip choiceRaw = "2"
    · rw [if_pos h2, if_pos h2]
      cases rest with
      | nil => rfl
      | cons tRaw rest2 =>
        simp only []
        by_cases hemp : pyStrip tRaw = ""
        · rw [if_pos hemp, if_pos hemp]
        · rw [if_neg hemp, if_neg hemp]
          have hcc := hcred (pyStrip tRaw)
          cases hx1 : c1.get_credentials (pyStrip tRaw) with
          | ok e1 =>
            cases hx2 : c2.get_credentials (pyStrip tRaw) with
            | ok e2 =>
              rw [hx1, hx2] at hcc
              simp only [credEquiv] at hcc
              obtain ⟨ht, hu, hp, hurl, hn, ha, hid⟩ := hcc
              simp only [hx1, hx2, hu, pwdMask_equiv hp]
            | error e2 =>
              rw [hx1, hx2] at hcc
              simp only [credEquiv] at hcc
          | error e1 =>
            cases hx2 : c2.get_credentials (pyStrip tRaw) with
            | ok e2 =>
              rw [hx1, hx2] at hcc
              simp only [credEquiv] at hcc
            | error e2 =>
              rw [hx1, hx2] at hcc
              simp only [credEquiv] at hcc
              subst hcc
              simp only [hx1, hx2]
    · rw [if_neg h2, if_neg h2]
      by_cases h3 : pyStrip choiceRaw = "3"
      · rw [if_pos h3, if_pos h3]
        cases rest with
        | nil => rfl
        | cons tRaw rest2 =>
          simp only []
          by_cases hemp : pyStrip tRaw = ""
          · rw [if_pos hemp, if_pos hemp]
          · rw [if_neg hemp, if_neg hemp]
            have hcc := hcred (pyStrip tRaw)
            cases hx1 : c1.get_credentials (pyStrip tRaw) with
            | ok e1 =>
              cases hx2 : c2.get_credentials (pyStrip tRaw) with
              | ok e2 =>
                rw [hx1, hx2] at hcc
                simp only [credEquiv] at hcc
                obtain ⟨ht, hu, hp, hurl, hn, ha, hid⟩ := hcc
                simp only [hx1, hx2, ht, hu, hurl, hn, ha, pwdMask_equiv hp]
              | error e2 =>
                rw [hx1, hx2] at hcc
                simp only [credEquiv] at hcc
            | error e1 =>
              cases hx2 : c2.get_credentials (pyStrip tRaw) with
              | ok e2 =>
                rw [hx1, hx2] at hcc
                simp only [credEquiv] at hcc
              | error e2 =>
                rw [hx1, hx2] at hcc
                simp only [credEquiv] at hcc
                subst hcc
                simp only [hx1, hx2]
      · rw [if_neg h3, if_neg h3]

theorem interactiveLoopAux_congr {c1 c2 : Collaborator} (h : collabEquiv c1 c2) :
    ∀ (fuel : Nat) (inputs : List String),
      interactiveLoopAux c1 fuel inputs = interactiveLoopAux c2 fuel inputs := by
  intro fuel
  induction fuel with
  | zero =>
    intro inputs
    cases inputs <;> rfl
  | succ fuel ih =>
    intro inputs
    cases inputs with
    | nil => rfl
    | cons choiceRaw rest =>
      show interactiveBody c1 (interactiveLoopAux c1 fuel) choiceRaw rest =
        interactiveBody c2 (interactiveLoopAux c2 fuel) choiceRaw rest
      exact interactiveBody_congr ⟨h.1, h.2.1, h.2.2.1, h.2.2.2.1,
        h.2.2.2.2.1, h.2.2.2.2.2⟩ ih choiceRaw rest

theorem interactiveLoop_congr {c1 c2 : Collaborator} (h : collabEquiv c1 c2)
    (inputs : List String) :
    interactiveLoop c1 inputs = interactiveLoop c2 inputs :=
  interactiveLoopAux_congr h inputs.length inputs

theorem interactive_mode_congr {c1 c2 : Collaborator} (h : collabEquiv c1 c2)
    (g : Bool) (inputs : List String) :
    interactive_mode c1 g inputs = interactive_mode c2 g inputs := by
  have hl := interactiveLoop_congr h inputs
  obtain ⟨hopen, hcred, hsearch, hseq, hcount, hexists⟩ := h
  unfold interactive_mode
  rw [hopen, hl]

theorem mainRun_congr {c1 c2 : Collaborator} (h : collabEquiv c1 c2)
    (a : Args) (inputs : List String) :
    mainRun c1 a inputs = mainRun c2 a inputs := by
  unfold mainRun
  cases hInt : a.interactive with
  | true =>
    simp only [if_true]
    rw [interactive_mode_congr h a.gui inputs]
  | false =>
    simp only [Bool.false_eq_true, if_false]
    cases a.db with
    | none => rfl
    | some d =>
      simp only [action_count_attr]

/-- C6: password noninterference.  No part of the demo layer writes a
password to stdout in clear text: any two collaborators that differ only
in the password values (of equal length) inside the entries they return
produce *identical* observable traces — prints included — on every
handler, on the comparison demo, on interactive mode with any input
sequence, on `main` with any arguments, and on the minimalistic demo;
wherever a password reaches the output it does so only through the
length-preserving asterisk mask. -/
theorem passwords_never_printed_in_clear :
    ∀ (c1 c2 : Collaborator), collabEquiv c1 c2 →
      (∀ (db t : String) (g : Bool),
        get_credentials_demo c1 db t g = get_credentials_demo c2 db t g) ∧
      (∀ (db t : String) (g : Bool),
        get_full_entry_demo c1 db t g = get_full_entry_demo c2 db t g) ∧
      (∀ (db term : String) (g : Bool),
        search_entries_demo c1 db term g = search_entries_demo c2 db term g) ∧
      (∀ (db t : String) (g : Bool),
        autotype_demo c1 db t g = autotype_demo c2 db t g) ∧
      (∀ (x : Option String),
        gui_comparison_demo c1 x = gui_comparison_demo c2 x) ∧
      (∀ (g : Bool) (inputs : List String),
        interactive_mode c1 g inputs = interactive_mode c2 g inputs) ∧
      (∀ (a : Args) (inputs : List String),
        mainRun c1 a inputs = mainRun c2 a inputs) ∧
      demo_minimalistic c1 = demo_minimalistic c2 :=
  fun _ _ h =>
    ⟨fun db t g => get_credentials_demo_congr h db t g,
     fun db t g => get_full_entry_demo_congr h db t g,
     fun db term g => search_entries_demo_congr h db term g,
     fun db t g => autotype_demo_congr h db t g,
     gui_comparison_demo_congr h,
     interactive_mode_congr h,
     mainRun_congr h,
     demo_minimalistic_congr h⟩

theorem aliceCollab_equiv : collabEquiv aliceCollab aliceCollab2 := by
  refine ⟨rfl, ?_, ?_, rfl, rfl, rfl⟩
  · intro t
    show entryEquiv aliceEntry aliceEntry2
    exact ⟨rfl, rfl, rfl, rfl, rfl, rfl, rfl⟩
  · intro t n
    exact List.Forall₂.nil

/-- Witness for C6: two concrete collaborators whose only difference is
the password value `p4ss` vs `s3cr` (equal length) give identical traces
both for a single-shot run and for an interactive session that displays
the credentials. -/
theorem passwords_never_printed_in_clear_witness :
    get_credentials_demo aliceCollab "pw.kdbx" "Site" false =
      get_credentials_demo aliceCollab2 "pw.kdbx" "Site" false ∧
    interactive_mode aliceCollab false ["2", "Site", "6"] =
      interactive_mode aliceCollab2 false ["2", "Site", "6"] :=
  ⟨(passwords_never_printed_in_clear aliceCollab aliceCollab2
      aliceCollab_equiv).1 "pw.kdbx" "Site" false,
   (passwords_never_printed_in_clear aliceCollab aliceCollab2
      aliceCollab_equiv).2.2.2.2.2.1 false ["2", "Site", "6"]⟩

end KeepassDemo
